import Mathlib

/-!
Verification development for the doorbell-porter repository.

The definitions below are a shallow embedding of the Python sources
`rtsp_session.py` and `audio_handler.py`: pure string / byte
manipulation is translated to Lean functions over `String`, `List Nat`
(bytes, each < 256) and `Int` (16-bit signed samples); the mutable
object state of `RTSPSession` becomes an explicit `RTSPState` record
that every operation takes and returns; network I/O is modelled by a
list of raw response strings consumed one per request, with `Except`
carrying the state at the point a Python exception would be raised.
-/

set_option maxRecDepth 200000

namespace Doorbell

/-! ### Python string primitives used by the sources

All of these are implemented by structural recursion (a fuel argument
bounded by the list length where needed) over the string's character
list, so that concrete runs reduce inside the kernel. -/

/-- Core of `splitOnChars`: scan `l`, cutting at each non-overlapping
occurrence of the nonempty separator `sep`. `fuel` bounds the recursion
and is always called with `fuel ≥ l.length`. -/
def splitOnGo (sep : List Char) : Nat → List Char → List Char → List (List Char)
  | 0, l, acc => [acc.reverse ++ l]
  | _ + 1, [], acc => [acc.reverse]
  | fuel + 1, c :: rest, acc =>
    if sep.isPrefixOf (c :: rest) then
      acc.reverse :: splitOnGo sep fuel ((c :: rest).drop sep.length) []
    else
      splitOnGo sep fuel rest (c :: acc)

/-- Python `s.split(sep)` on character lists (empty separator returns the
whole list, a case the sources never exercise). -/
def splitOnChars (sep l : List Char) : List (List Char) :=
  match sep with
  | [] => [l]
  | s0 :: ss => splitOnGo (s0 :: ss) (l.length + 1) l []

/-- Python `s.split(sep)` with a string separator. -/
def pySplitOn (s sep : String) : List String :=
  (splitOnChars sep.data s.data).map String.mk

/-- Python `str.split()` with no separator: split on runs of whitespace,
discarding empty pieces. -/
def pySplit (s : String) : List String :=
  ((s.data.splitOnP Char.isWhitespace).filter (fun p => p ≠ [])).map String.mk

/-- Python `sub in s` substring test (used with nonempty `sub` only). -/
def strContains (s sub : String) : Bool :=
  (splitOnChars sub.data s.data).length ≥ 2

/-- Python `s.split(sep, 1)`: split at the first occurrence of `sep` only. -/
def pySplit1 (s sep : String) : List String :=
  match pySplitOn s sep with
  | [] => []
  | x :: rest => if rest.isEmpty then [x] else [x, sep.intercalate rest]

/-- Python `s.startswith(p)`. -/
def pyStartsWith (s p : String) : Bool :=
  p.data.isPrefixOf s.data

/-- Python `s.strip()`: drop leading and trailing whitespace. -/
def pyStrip (s : String) : String :=
  String.mk (((s.data.dropWhile Char.isWhitespace).reverse.dropWhile
    Char.isWhitespace).reverse)

/-- Python `s.strip('"')`: drop leading and trailing double-quote runs. -/
def stripQuotes (s : String) : String :=
  String.mk (((s.data.dropWhile (fun c => c == '"')).reverse.dropWhile
    (fun c => c == '"')).reverse)

/-- Decimal value of a digit list (all characters assumed digits). -/
def digitsToNat (l : List Char) : Nat :=
  l.foldl (fun a c => a * 10 + (c.toNat - 48)) 0

/-- Python `int(s)` on decimal text, `none` when Python would raise
`ValueError` (sign and surrounding whitespace accepted). -/
def pyInt? (s : String) : Option Int :=
  let t := (pyStrip s).data
  match t with
  | [] => none
  | c :: rest =>
    if c = '-' then
      if rest ≠ [] ∧ rest.all Char.isDigit then some (-(digitsToNat rest : Int))
      else none
    else if c = '+' then
      if rest ≠ [] ∧ rest.all Char.isDigit then some (digitsToNat rest : Int)
      else none
    else if (c :: rest).all Char.isDigit then
      some (digitsToNat (c :: rest) : Int)
    else none

/-- Truthiness of an optional Python string (`None` and `""` are falsy). -/
def pyTruthy : Option String → Bool
  | none => false
  | some s => s ≠ ""

/-! ### MD5 (RFC 1321), executable over byte lists

`hashlib.md5(...).hexdigest()` from `_create_auth_header`. Bytes are
`Nat` values below 256; 32-bit words are `Nat` reduced `% 2^32`. -/

/-- UTF-8 encoding of one character (Python `str.encode()`). -/
def charUtf8 (c : Char) : List Nat :=
  let n := c.toNat
  if n < 0x80 then [n]
  else if n < 0x800 then [0xC0 + n / 64, 0x80 + n % 64]
  else if n < 0x10000 then
    [0xE0 + n / 4096, 0x80 + n / 64 % 64, 0x80 + n % 64]
  else
    [0xF0 + n / 262144, 0x80 + n / 4096 % 64, 0x80 + n / 64 % 64, 0x80 + n % 64]

/-- UTF-8 bytes of a string. -/
def strBytes (s : String) : List Nat :=
  s.toList.flatMap charUtf8

/-- The 64 MD5 sine-derived constants `⌊|sin(i+1)|·2^32⌋`. -/
def md5K : List Nat :=
  [3614090360, 3905402710, 606105819, 3250441966, 4118548399, 1200080426,
   2821735955, 4249261313, 1770035416, 2336552879, 4294925233, 2304563134,
   1804603682, 4254626195, 2792965006, 1236535329, 4129170786, 3225465664,
   643717713, 3921069994, 3593408605, 38016083, 3634488961, 3889429448,
   568446438, 3275163606, 4107603335, 1163531501, 2850285829, 4243563512,
   1735328473, 2368359562, 4294588738, 2272392833, 1839030562, 4259657740,
   2763975236, 1272893353, 4139469664, 3200236656, 681279174, 3936430074,
   3572445317, 76029189, 3654602809, 3873151461, 530742520, 3299628645,
   4096336452, 1126891415, 2878612391, 4237533241, 1700485571, 2399980690,
   4293915773, 2240044497, 1873313359, 4264355552, 2734768916, 1309151649,
   4149444226, 3174756917, 718787259, 3951481745]

/-- Per-round left-rotation amounts. -/
def md5S : List Nat :=
  [7, 12, 17, 22, 7, 12, 17, 22, 7, 12, 17, 22, 7, 12, 17, 22,
   5, 9, 14, 20, 5, 9, 14, 20, 5, 9, 14, 20, 5, 9, 14, 20,
   4, 11, 16, 23, 4, 11, 16, 23, 4, 11, 16, 23, 4, 11, 16, 23,
   6, 10, 15, 21, 6, 10, 15, 21, 6, 10, 15, 21, 6, 10, 15, 21]

/-- 32-bit mask. -/
def w32 : Nat := 4294967296

/-- 32-bit left rotation. -/
def rotl32 (x s : Nat) : Nat :=
  ((x <<< s) % w32) ||| (x >>> (32 - s))

/-- Bitwise complement within 32 bits. -/
def not32 (x : Nat) : Nat := x ^^^ (w32 - 1)

/-- Round function and message index for MD5 round `i`. -/
def md5FG (i b c d : Nat) : Nat × Nat :=
  if i < 16 then ((b &&& c) ||| (not32 b &&& d), i)
  else if i < 32 then ((d &&& b) ||| (not32 d &&& c), (5 * i + 1) % 16)
  else if i < 48 then (b ^^^ c ^^^ d, (3 * i + 5) % 16)
  else (c ^^^ (b ||| not32 d), (7 * i) % 16)

/-- Decode little-endian 32-bit words from a 64-byte block. -/
def md5Words (block : List Nat) : List Nat :=
  (List.range 16).map fun j =>
    block.getD (4 * j) 0 + block.getD (4 * j + 1) 0 * 256 +
    block.getD (4 * j + 2) 0 * 65536 + block.getD (4 * j + 3) 0 * 16777216

/-- One MD5 compression step. -/
def md5Round (m : List Nat) (st : Nat × Nat × Nat × Nat) (i : Nat) :
    Nat × Nat × Nat × Nat :=
  let (a, b, c, d) := st
  let (f, g) := md5FG i b c d
  let tmp := (f + a + md5K.getD i 0 + m.getD g 0) % w32
  (d, (b + rotl32 tmp (md5S.getD i 0)) % w32, b, c)

/-- Process one 64-byte block into the running digest state. -/
def md5Block (st : Nat × Nat × Nat × Nat) (block : List Nat) :
    Nat × Nat × Nat × Nat :=
  let m := md5Words block
  let (a, b, c, d) := (List.range 64).foldl (md5Round m) st
  let (a0, b0, c0, d0) := st
  ((a0 + a) % w32, (b0 + b) % w32, (c0 + c) % w32, (d0 + d) % w32)

/-- Split a byte list into 64-byte blocks (`fuel ≥ l.length` always). -/
def chunks64Go : Nat → List Nat → List (List Nat)
  | 0, _ => []
  | _ + 1, [] => []
  | fuel + 1, x :: xs =>
    (x :: xs).take 64 :: chunks64Go fuel ((x :: xs).drop 64)

/-- Split a byte list into 64-byte blocks. -/
def chunks64 (l : List Nat) : List (List Nat) :=
  chunks64Go l.length l

/-- Little-endian byte encoding of `x` on `n` bytes. -/
def leBytes : Nat → Nat → List Nat
  | 0, _ => []
  | n + 1, x => x % 256 :: leBytes n (x / 256)

/-- MD5 padding: `0x80`, zeros to 56 mod 64, then the 64-bit bit length. -/
def md5Pad (msg : List Nat) : List Nat :=
  let len := msg.length
  let zeros := (119 - len % 64) % 64
  msg ++ [0x80] ++ List.replicate zeros 0 ++ leBytes 8 (len * 8 % (w32 * w32))

/-- MD5 digest of a byte list, as 16 bytes. -/
def md5Bytes (msg : List Nat) : List Nat :=
  let (a, b, c, d) :=
    (chunks64 (md5Pad msg)).foldl md5Block
      (0x67452301, 0xefcdab89, 0x98badcfe, 0x10325476)
  leBytes 4 a ++ leBytes 4 b ++ leBytes 4 c ++ leBytes 4 d

/-- Lowercase hex character for a nibble. -/
def hexNibble (n : Nat) : Char :=
  if n < 10 then Char.ofNat (48 + n) else Char.ofNat (87 + n % 16)

/-- Lowercase hex string of a byte list. -/
def bytesToHex (bs : List Nat) : String :=
  String.mk (bs.flatMap fun b => [hexNibble (b / 16 % 16), hexNibble (b % 16)])

/-- Python `hashlib.md5(s.encode()).hexdigest()`. -/
def md5Hex (s : String) : String := bytesToHex (md5Bytes (strBytes s))

/-! ### SDP parsing (`RTSPSession.parse_sdp`, rtsp_session.py lines 182-224)

The Python code keeps a `current_media` dict; we embed it as a record
of optional fields. `parse_sdp` returns the selected control URL (the
Python return value) together with the payload-type string of the
selected block: the Python method stores
`int(current_media['payload_type'])` into
`self.backchannel_payload_type` at selection time, which raises when
the key is absent or non-numeric — the second component `none` marks
"no selection" and the stored value is obtained via `pyInt?`. -/

/-- The transient `current_media` dict of `parse_sdp`. -/
structure SdpMedia where
  payload_type : Option String
  control : Option String
  direction : Option String
  codec : Option String
deriving DecidableEq, Repr

/-- Processing of one stripped SDP line while inside an `m=audio` block
(the `if current_media is not None` body, minus the selection test). -/
def sdpUpdate (m : SdpMedia) (line : String) : SdpMedia :=
  if pyStartsWith line "a=control:" then
    { m with control := some ((pySplit1 line ":").getD 1 "") }
  else if pyStartsWith line "a=sendonly" then
    { m with direction := some "sendonly" }
  else if pyStartsWith line "a=rtpmap:" then
    let parts := pySplit ((pySplit1 line ":").getD 1 "")
    if parts.length > 1 ∧
        (strContains (parts.getD 1 "") "PCMU" ∨
         strContains (parts.getD 1 "") "PCMA") then
      { m with codec := some (parts.getD 1 "") }
    else m
  else m

/-- The selection test: all of `control`, `direction`, `codec` present and
direction is `sendonly` (the Python `all(...) and ... == 'sendonly'`). -/
def sdpQualifies (m : SdpMedia) : Bool :=
  m.control.isSome && m.direction.isSome && m.codec.isSome &&
    (m.direction == some "sendonly")

/-- The scan loop of `parse_sdp` over the remaining lines, carrying the
optional current block; returns the selected block, if any. -/
def parseSdpLoop : List String → Option SdpMedia → Option SdpMedia
  | [], _ => none
  | rawLine :: rest, cur =>
    let line := pyStrip rawLine
    if pyStartsWith line "m=audio" then
      let parts := pySplit line
      let m : SdpMedia :=
        if parts.length > 3 then
          { payload_type := some (parts.getD 3 ""), control := none,
            direction := none, codec := none }
        else
          { payload_type := none, control := none,
            direction := none, codec := none }
      parseSdpLoop rest (some m)
    else
      match cur with
      | none => parseSdpLoop rest none
      | some m =>
        let m' := sdpUpdate m line
        if sdpQualifies m' then some m' else parseSdpLoop rest (some m')

/-- `RTSPSession.parse_sdp`: first component is the returned
`backchannel_track` (the selected block's control URL), second is the
payload-type string captured from that block's `m=audio` line. -/
def parse_sdp (sdp : String) : Option (String × Option String) :=
  match parseSdpLoop (pySplitOn sdp "\n") none with
  | none => none
  | some m => some (m.control.getD "", m.payload_type)

/-! ### RTSP session state (`RTSPSession.__init__`, rtsp_session.py lines 43-77)

`urlparse` is not modelled: `hostname` and `port` are passed to
`initState` directly. Sockets are modelled by booleans: `sockOpen` is
Python's `hasattr(self, 'sock')`, `backchannel_socket` is whether
`self.backchannel_socket` holds a socket object. -/

structure RTSPState where
  url : String
  username : String
  password : String
  hostname : String
  port : Nat
  session_id : Option String
  seq : Nat
  auth_type : Option String
  realm : Option String
  nonce : Option String
  is_connected : Bool
  backchannel_client_port : Nat
  backchannel_server_port : Option Int
  backchannel_socket : Bool
  backchannel_configured : Bool
  backchannel_payload_type : Int
  last_keepalive : Nat
  sockOpen : Bool
deriving DecidableEq, Repr

/-- `RTSPSession.__init__`. -/
def initState (url username password hostname : String) (port : Nat) :
    RTSPState :=
  { url := url, username := username, password := password,
    hostname := hostname, port := port,
    session_id := none, seq := 0, auth_type := none,
    realm := none, nonce := none, is_connected := true,
    backchannel_client_port := 49154, backchannel_server_port := none,
    backchannel_socket := false, backchannel_configured := false,
    backchannel_payload_type := 0, last_keepalive := 0, sockOpen := false }

/-! ### Digest authentication (`_create_auth_header`, lines 79-95) -/

/-- The `response=` digest value computed by `_create_auth_header`:
`MD5(MD5(user:realm:pass) : nonce : MD5(method:uri))` in lowercase hex. -/
def createAuthResponse (username realm password nonce method uri : String) :
    String :=
  let ha1 := md5Hex (username ++ ":" ++ realm ++ ":" ++ password)
  let ha2 := md5Hex (method ++ ":" ++ uri)
  md5Hex (ha1 ++ ":" ++ nonce ++ ":" ++ ha2)

/-- `RTSPSession._create_auth_header`: the full header value. -/
def createAuthHeader (st : RTSPState) (method uri : String) : String :=
  "Digest username=\"" ++ st.username ++ "\", realm=\"" ++ st.realm.getD "" ++
  "\", nonce=\"" ++ st.nonce.getD "" ++ "\", uri=\"" ++ uri ++
  "\", response=\"" ++
  createAuthResponse st.username (st.realm.getD "") st.password
    (st.nonce.getD "") method uri ++ "\""

/-! ### Request sending (`send_request`, lines 97-180)

The TCP socket is replaced by a list of raw response strings, one
consumed per request written. A `SendRes.err` is a Python exception
(connection failure on an exhausted list, or `IndexError`/`ValueError`
while parsing the status line) and carries the state at the raise
point. Each request written is appended to `trace` as
(method, target URI, request headers). -/

/-- Request headers as an insertion-ordered dict. -/
abbrev Headers := List (String × String)

/-- Python `dict[k] = v`: replace in place or append. -/
def upsert (hs : Headers) (k v : String) : Headers :=
  if hs.any (fun p => p.1 = k) then
    hs.map (fun p => if p.1 = k then (k, v) else p)
  else hs ++ [(k, v)]

/-- Python `dict.get(k)`. -/
def getHeader (hs : Headers) (k : String) : Option String :=
  (hs.find? (fun p => p.1 = k)).map (fun p => p.2)

/-- One request as written to the socket (method, URI, headers). -/
abbrev SentReq := String × String × Headers

/-- Result of `send_request`. -/
inductive SendRes where
  | err (st : RTSPState) (trace : List SentReq)
  | ok (st : RTSPState) (status : Int) (rhdrs : Headers) (body : String)
      (rest : List String) (trace : List SentReq)
deriving DecidableEq, Repr

/-- The state carried by a `SendRes`. -/
def SendRes.state : SendRes → RTSPState
  | .err s _ => s
  | .ok s _ _ _ _ _ => s

/-- The request trace carried by a `SendRes`. -/
def SendRes.reqs : SendRes → List SentReq
  | .err _ t => t
  | .ok _ _ _ _ _ t => t

/-- Header/body parsing of a response (lines 151-162): scan the lines
after the status line; an empty line switches to body accumulation,
otherwise a `': '` line is recorded as a header. -/
def parseHeadersBody (ls : List String) : Headers × String :=
  let r := ls.foldl
    (fun (acc : Headers × String × Bool) line =>
      let (hs, body, done) := acc
      if line = "" then (hs, body, true)
      else if done then (hs, body ++ line ++ "\r\n", done)
      else if strContains line ": " then
        match pySplit1 line ": " with
        | k :: v :: _ => (upsert hs k v, body, done)
        | _ => (hs, body, done)
      else (hs, body, done))
    ([], "", false)
  (r.1, r.2.1)

/-- Status-line and header parsing of one raw response (lines 145-162);
`none` is a Python `IndexError`/`ValueError`. -/
def parseResponse (raw : String) : Option (Int × Headers × String) :=
  match pySplitOn raw "\r\n" with
  | [] => none
  | l0 :: rest =>
    match (pySplitOn l0 " ").get? 1 with
    | none => none
    | some s =>
      match pyInt? s with
      | none => none
      | some status => some (status, parseHeadersBody rest)

/-- One comma-separated item of the Digest challenge (lines 168-175):
on a `key=value` item, record `realm` or `nonce` with quotes stripped. -/
def digestItemStep (st : RTSPState) (item : String) : RTSPState :=
  if strContains item "=" then
    match pySplit1 (pyStrip item) "=" with
    | k :: v :: _ =>
      let value := stripQuotes v
      if k = "realm" then { st with realm := some value }
      else if k = "nonce" then { st with nonce := some value }
      else st
    | _ => st
  else st

/-- The `WWW-Authenticate: Digest` challenge parse (lines 165-175):
sets `auth_type` and scans comma-separated `key=value` items for
`realm` and `nonce`, stripping quotes. -/
def parseDigestChallenge (st : RTSPState) (authLine : String) : RTSPState :=
  if pyStartsWith authLine "Digest" then
    (pySplitOn (String.mk (authLine.data.drop 7)) ",").foldl
      digestItemStep { st with auth_type := some "Digest" }
  else st

/-- The target URI of a request: `path if path else self.url` (line 130). -/
def reqUri (st : RTSPState) (path : Option String) : String :=
  if pyTruthy path then path.getD "" else st.url

/-- The request-header construction of lines 117-133: upsert
`CSeq`/`User-Agent`/`Require` into the caller's dict, attach `Session`
for methods other than OPTIONS/DESCRIBE when a session id is truthy,
attach `Authorization` when realm and nonce are truthy. -/
def buildReqHeaders (st : RTSPState) (method uri : String)
    (hdrs0 : Option Headers) : Headers :=
  let hdrs := upsert (upsert (upsert (hdrs0.getD []) "CSeq" (toString st.seq))
    "User-Agent" "Python RTSP Client") "Require" "www.onvif.org/ver20/backchannel"
  let hdrs :=
    if pyTruthy st.session_id ∧ method ≠ "OPTIONS" ∧ method ≠ "DESCRIBE" then
      upsert hdrs "Session" (st.session_id.getD "")
    else hdrs
  if pyTruthy st.realm ∧ pyTruthy st.nonce then
    upsert hdrs "Authorization" (createAuthHeader st method uri)
  else hdrs

/-- `RTSPSession.send_request`. Faithful points: `seq` is incremented
first; the header dict is built by `buildReqHeaders`; on a 401 with no
realm known whose `WWW-Authenticate` is a Digest challenge yielding
truthy realm and nonce, the method is re-sent — passing the *response*
headers as the new request headers, exactly as the Python rebinds
`headers` to the response dict at line 151 before the recursive call
at line 178. -/
def send_request (st0 : RTSPState) (method : String) (hdrs0 : Option Headers)
    (path : Option String) (resps : List String) (trace : List SentReq) :
    SendRes :=
  let st1 := { st0 with seq := st0.seq + 1 }
  let uri := reqUri st1 path
  let hdrs := buildReqHeaders st1 method uri hdrs0
  let st2 := { st1 with sockOpen := true }
  let trace := trace ++ [(method, uri, hdrs)]
  match resps with
  | [] => .err st2 trace
  | raw :: rest =>
    match parseResponse raw with
    | none => .err st2 trace
    | some (status, rhdrs, body) =>
      if status = 401 ∧ ¬ pyTruthy st2.realm then
        let st3 := parseDigestChallenge st2 ((getHeader rhdrs "WWW-Authenticate").getD "")
        if pyTruthy st3.realm ∧ pyTruthy st3.nonce then
          send_request st3 method (some rhdrs) path rest trace
        else .ok st3 status rhdrs body rest trace
      else .ok st2 status rhdrs body rest trace

/-! ### Backchannel negotiation (`setup_backchannel`, lines 226-333)

The UDP bind outcome is an oracle boolean. Every `(false, s)` exit is
either an explicit `return False` or an exception caught by the
enclosing `except Exception` handler, with `s` the state accumulated
so far. -/

/-- Lines 304-329: check PLAY status, create and bind the UDP socket,
then mark the backchannel configured. -/
def setup_afterPlay (s7 : RTSPState) (status7 : Int) (bindOk : Bool) :
    Bool × RTSPState :=
  if status7 ≠ 200 then (false, s7)
  else
    let s8 := { s7 with backchannel_socket := true }
    if ¬ bindOk then (false, s8)
    else (true, { s8 with backchannel_configured := true })

/-- Lines 304-311: the PLAY request at the content base. -/
def setup_play (s6 : RTSPState) (contentBase : String) (rs3 : List String)
    (bindOk : Bool) : Bool × RTSPState :=
  match send_request s6 "PLAY" (some [("Range", "npt=0.000-")])
      (some contentBase) rs3 [] with
  | .err s _ => (false, s)
  | .ok s7 status7 _ _ _ _ => setup_afterPlay s7 status7 bindOk

/-- Lines 269-302: validate the SETUP response — Transport header with
a `server_port` in 1024-65535 (the port is stored *before* the range
check), then the Session header, whose first `;`-component becomes the
session id. -/
def setup_afterSetup (s4 : RTSPState) (status4 : Int) (shdrs : Headers)
    (contentBase : String) (rs3 : List String) (bindOk : Bool) :
    Bool × RTSPState :=
  if status4 ≠ 200 then (false, s4)
  else if (getHeader shdrs "Transport").getD "" = "" then (false, s4)
  else if ¬ strContains ((getHeader shdrs "Transport").getD "")
      "server_port=" then (false, s4)
  else
    match pyInt? ((pySplitOn ((pySplitOn ((pySplitOn
        ((getHeader shdrs "Transport").getD "") "server_port=").getD 1 "")
        ";").getD 0 "") "-").getD 0 "") with
    | none => (false, s4)
    | some p =>
      if ¬ (1024 ≤ p ∧ p ≤ 65535) then
        (false, { s4 with backchannel_server_port := some p })
      else if (getHeader shdrs "Session").getD "" = "" then
        (false, { s4 with backchannel_server_port := some p })
      else
        setup_play
          { s4 with
              backchannel_server_port := some p
              session_id := some ((pySplitOn
                ((getHeader shdrs "Session").getD "") ";").getD 0 "") }
          contentBase rs3 bindOk

/-- Lines 264-268: the SETUP request at content base + control URL with
the client-port Transport offer. -/
def setup_setup (s3 : RTSPState) (contentBase track : String)
    (rs2 : List String) (bindOk : Bool) : Bool × RTSPState :=
  match send_request s3 "SETUP"
      (some [("Transport", "RTP/AVP;unicast;client_port=" ++
        toString s3.backchannel_client_port ++ "-" ++
        toString (s3.backchannel_client_port + 1))])
      (some (contentBase ++ track)) rs2 [] with
  | .err s _ => (false, s)
  | .ok s4 status4 shdrs _ rs3 _ =>
    setup_afterSetup s4 status4 shdrs contentBase rs3 bindOk

/-- Lines 248-262: check DESCRIBE status, parse the SDP (storing the
selected payload type), reject a falsy track, and build the content
base (the `Content-Base` header or the session URL, `/`-terminated). -/
def setup_afterDescribe (s2 : RTSPState) (status2 : Int) (dhdrs : Headers)
    (sdp : String) (rs2 : List String) (bindOk : Bool) : Bool × RTSPState :=
  if status2 ≠ 200 then (false, s2)
  else
    match parse_sdp sdp with
    | none => (false, s2)
    | some (track, ptStr) =>
      match ptStr with
      | none => (false, s2)
      | some pts =>
        match pyInt? pts with
        | none => (false, s2)
        | some pt =>
          if track = "" then
            (false, { s2 with backchannel_payload_type := pt })
          else
            setup_setup { s2 with backchannel_payload_type := pt }
              (if ((getHeader dhdrs "Content-Base").getD
                    s2.url).data.getLast? = some '/' then
                (getHeader dhdrs "Content-Base").getD s2.url
              else (getHeader dhdrs "Content-Base").getD s2.url ++ "/")
              track rs2 bindOk

/-- Lines 240-247: check OPTIONS status, then DESCRIBE with
`Accept: application/sdp`. -/
def setup_afterOptions (s1 : RTSPState) (status1 : Int) (rs1 : List String)
    (bindOk : Bool) : Bool × RTSPState :=
  if status1 ≠ 200 then (false, s1)
  else
    match send_request s1 "DESCRIBE" (some [("Accept", "application/sdp")])
        none rs1 [] with
    | .err s _ => (false, s)
    | .ok s2 status2 dhdrs sdp rs2 _ =>
      setup_afterDescribe s2 status2 dhdrs sdp rs2 bindOk

/-- `RTSPSession.setup_backchannel` (lines 226-333), as the chain of the
step functions above, starting with OPTIONS against the stream root. -/
def setup_backchannel (st : RTSPState) (resps : List String) (bindOk : Bool) :
    Bool × RTSPState :=
  match send_request st "OPTIONS" none
      (some ("rtsp://" ++ st.hostname ++ ":" ++ toString st.port ++ "/"))
      resps [] with
  | .err s _ => (false, s)
  | .ok s1 status1 _ _ rs1 _ => setup_afterOptions s1 status1 rs1 bindOk

/-! ### Teardown (`teardown`, lines 357-391) -/

/-- `RTSPSession.teardown`: best-effort TEARDOWN when a session id
exists (exceptions swallowed), both sockets closed, then the reset
block of lines 381-389 — which does *not* touch
`backchannel_payload_type`. -/
def teardown (st : RTSPState) (resps : List String) : RTSPState :=
  let st1 :=
    if pyTruthy st.session_id then
      (send_request st "TEARDOWN" none (some st.url) resps []).state
    else st
  { st1 with
    session_id := none, seq := 0, auth_type := none, realm := none,
    nonce := none, last_keepalive := 0, backchannel_server_port := none,
    backchannel_configured := false, sockOpen := false,
    backchannel_socket := false }

/-! ## Audio handler (`audio_handler.py`) -/

/-- Nominal chunk size `self.CHUNK` (audio_handler.py line 52). -/
def CHUNK : Nat := 4096

/-- Ingest queue capacity: `Queue(maxsize=50)` (line 55). -/
def INGEST_CAPACITY : Nat := 50

/-! ### RTP packetization (lines 281-293 and 396-409)

Both backchannel strategies run the identical header/counter code; it
is embedded once. The handler state `backchannel_seq`,
`backchannel_timestamp`, `backchannel_ssrc` is from `__init__`
(lines 69-71); `ssrc` is the fixed `os.urandom(4)` byte string. -/

structure RtpState where
  backchannel_seq : Nat
  backchannel_timestamp : Nat
  backchannel_ssrc : List Nat
deriving DecidableEq, Repr

/-- `int.to_bytes(4, 'big')`. -/
def beBytes4 (x : Nat) : List Nat :=
  [x / 16777216 % 256, x / 65536 % 256, x / 256 % 256, x % 256]

/-- The 12-byte RTP header built for one packet: `0x80`, the negotiated
payload type, big-endian sequence (bytes 2-3 via `>> 8 & 0xFF` / `& 0xFF`),
big-endian timestamp (bytes 4-7), then the 4 SSRC bytes. -/
def buildRtpHeader (payloadType : Int) (st : RtpState) : List Nat :=
  0x80 :: payloadType.toNat :: ((st.backchannel_seq >>> 8) &&& 0xFF) ::
    (st.backchannel_seq &&& 0xFF) :: (beBytes4 st.backchannel_timestamp ++
    st.backchannel_ssrc)

/-- The counter updates after one packet:
`seq = (seq + 1) & 0xFFFF`, `timestamp = (timestamp + 160) & 0xFFFFFFFF`. -/
def advanceRtp (st : RtpState) : RtpState :=
  { st with
    backchannel_seq := (st.backchannel_seq + 1) &&& 0xFFFF,
    backchannel_timestamp := (st.backchannel_timestamp + 160) &&& 0xFFFFFFFF }

/-- The packets produced for a run of encoded 160-byte payloads within
one session: each is header ++ payload, with the counters advanced in
between, exactly as each loop iteration of either strategy does. -/
def emitPackets (payloadType : Int) : RtpState → List (List Nat) →
    List (List Nat) × RtpState
  | st, [] => ([], st)
  | st, p :: ps =>
    let pkt := buildRtpHeader payloadType st ++ p
    let r := emitPackets payloadType (advanceRtp st) ps
    (pkt :: r.1, r.2)

/-- The 16-bit sequence number carried in bytes 2-3 of a packet. -/
def rtpSeqOf (pkt : List Nat) : Nat := pkt.getD 2 0 * 256 + pkt.getD 3 0

/-- The 32-bit timestamp carried in bytes 4-7 of a packet. -/
def rtpTsOf (pkt : List Nat) : Nat :=
  pkt.getD 4 0 * 16777216 + pkt.getD 5 0 * 65536 + pkt.getD 6 0 * 256 +
    pkt.getD 7 0

/-- The SSRC carried in bytes 8-11 of a packet. -/
def rtpSsrcOf (pkt : List Nat) : List Nat := (pkt.drop 8).take 4

/-! ### Ingest queue discipline (`_process_audio`, lines 161-176)

One `put` into the bounded ingest queue: if the queue is full the
single oldest entry is removed first (`get_nowait`), then the chunk is
appended — unless the bounded-wait `put` times out (`Full` raised), in
which case the chunk is dropped and the queue is left as it stands.
The timeout outcome is an oracle boolean per push. -/

def ingestPush {α : Type} (q : List α) (x : α) (timedOut : Bool) : List α :=
  let q1 := if q.length ≥ INGEST_CAPACITY then q.tail else q
  if timedOut then q1 else q1 ++ [x]

/-- A sequence of pushes, each with its timeout-oracle bit. -/
def ingestPushAll {α : Type} (q : List α) (xs : List (α × Bool)) : List α :=
  xs.foldl (fun q xb => ingestPush q xb.1 xb.2) q

/-- The queue entries produced for one chunk read from FFmpeg
(lines 169-173): the chunk itself, followed — when the chunk is
shorter than `CHUNK` — by a zero padding of `CHUNK - len(chunk)`
bytes (`b'\x00' * (self.CHUNK - len(audio_chunk))`). -/
def ingestChunkEntries (chunk : List Nat) : List (List Nat) :=
  if chunk.length < CHUNK then
    [chunk, List.replicate (CHUNK - chunk.length) 0]
  else [chunk]

/-! ### Built-in DSP sub-frame processing (`_handle_audioop_backchannel`,
lines 375-392)

Samples are signed 16-bit integers; `audioop` scale factors are
embedded as rationals. `audioop.mul` bounds each scaled sample with
CPython's `fbound` (saturate, then floor); `audioop.max` is the peak
absolute value; `audioop.rms` is `int(sqrt(sum_of_squares / n))`.
Config values from `config.py`: `VOLUME_TARGET_RATIO = 0.1`,
`NOISE_GATE_THRESHOLD = 1000`, `PEAK_LIMITER_THRESHOLD = 2000`. -/

def VOLUME_TARGET_RATIO : ℚ := 1/10
def NOISE_GATE_THRESHOLD : ℚ := 1000
def PEAK_LIMITER_THRESHOLD : ℚ := 2000

/-- CPython `audioop` `fbound` for 16-bit width: saturate into
`[-32768, 32767]`, rounding down. -/
def fbound (v : ℚ) : Int :=
  if v > 32767 then 32767 else if v < -32767 then -32768 else ⌊v⌋

/-- `audioop.mul(chunk, 2, factor)`. -/
def aMul (c : List Int) (factor : ℚ) : List Int :=
  c.map (fun s => fbound (s * factor))

/-- `audioop.max(chunk, 2)`: peak absolute sample value. -/
def aMax (c : List Int) : Nat :=
  c.foldl (fun m s => max m s.natAbs) 0

/-- Sum of squared samples. -/
def sumSq (c : List Int) : Nat :=
  c.foldl (fun a s => a + (s * s).toNat) 0

/-- `audioop.rms(chunk, 2)`: integer square root of the mean square. -/
def aRms (c : List Int) : Nat := Nat.sqrt (sumSq c / c.length)

/-- Volume adjustment (lines 376-379): scale toward the target ratio of
full scale, never amplifying beyond factor 1. -/
def volumeStep (c : List Int) : List Int :=
  let m := aMax c
  if 0 < m then aMul c (min 1 (32767 * VOLUME_TARGET_RATIO / m)) else c

/-- Soft noise gate (lines 381-386): below the RMS threshold, scale by
`max(0.01, rms / threshold)` instead of silencing. -/
def gateStep (c : List Int) : List Int :=
  if (aRms c : ℚ) < NOISE_GATE_THRESHOLD then
    aMul c (max (1/100) ((aRms c : ℚ) / NOISE_GATE_THRESHOLD))
  else c

/-- Peak limiter (lines 388-392). -/
def limiterStep (c : List Int) : List Int :=
  let m := aMax c
  if (m : ℚ) > PEAK_LIMITER_THRESHOLD then
    aMul c (PEAK_LIMITER_THRESHOLD / (m : ℚ))
  else c

/-- The full per-320-byte-sub-frame DSP chain before μ-law encoding. -/
def processSubframe (c : List Int) : List Int :=
  limiterStep (gateStep (volumeStep c))

/-! ### Egress send-failure handling (C9)

The observable actions of one `sendto` attempt in each strategy:
`_handle_audioop_backchannel` lines 411-436 and
`_handle_ffmpeg_backchannel` lines 304-315. `keepaliveResult` is the
outcome of `send_keepalive` during recovery (`none` = it raised). -/

structure EgressSendOutcome where
  keepaliveProbes : Nat
  socketInvalidated : Bool
  breaksLoop : Bool
  raisesOut : Bool
deriving DecidableEq, Repr

/-- One send attempt in the audioop strategy: on failure, one
`send_keepalive` probe; only if the probe returns false or raises is
`backchannel_socket` set to `None` and the loop exited. -/
def audioopSendAttempt (sendOk : Bool) (keepaliveResult : Option Bool) :
    EgressSendOutcome :=
  if sendOk then ⟨0, false, false, false⟩
  else
    match keepaliveResult with
    | some true => ⟨1, false, false, false⟩
    | some false => ⟨1, true, true, false⟩
    | none => ⟨1, true, true, false⟩

/-- One send attempt in the FFmpeg strategy: on failure the socket is
invalidated and the loop exited immediately, with no keepalive probe. -/
def ffmpegSendAttempt (sendOk : Bool) : EgressSendOutcome :=
  if sendOk then ⟨0, false, false, false⟩
  else ⟨0, true, true, false⟩

/-! ## Fixtures -/

/-- An SDP body with two `m=audio` blocks; only the second has
`a=sendonly` and `a=rtpmap:0 PCMU/8000`. -/
def twoBlockSdp : String :=
  "v=0\r\no=- 0 0 IN IP4 127.0.0.1\r\ns=Session\r\n" ++
  "m=audio 0 RTP/AVP 96\r\na=control:trackID=1\r\na=recvonly\r\n" ++
  "a=rtpmap:96 L16/16000\r\n" ++
  "m=audio 0 RTP/AVP 0\r\na=control:trackID=2\r\na=sendonly\r\n" ++
  "a=rtpmap:0 PCMU/8000\r\n"

/-- An SDP body whose single `m=audio` block has control and a PCMU
rtpmap but no `a=sendonly`: no block qualifies. -/
def noMatchSdp : String :=
  "v=0\r\nm=audio 0 RTP/AVP 0\r\na=control:trackID=1\r\n" ++
  "a=rtpmap:0 PCMU/8000\r\n"

/-- The block `parse_sdp` selects from `twoBlockSdp`. -/
def twoBlockSelected : SdpMedia :=
  { payload_type := some "0", control := some "trackID=2",
    direction := some "sendonly", codec := some "PCMU/8000" }

/-! ## Theorems -/

/-- Any block returned by the SDP scan loop satisfies the selection
test (control present, direction `sendonly`, matched codec). -/
theorem parseSdpLoop_qualifies (ls : List String) :
    ∀ cur m, parseSdpLoop ls cur = some m → sdpQualifies m = true := by
  induction ls with
  | nil => intro cur m h; simp [parseSdpLoop] at h
  | cons l rest ih =>
    intro cur m h
    simp only [parseSdpLoop] at h
    split at h
    · exact ih _ m h
    · match cur with
      | none => exact ih _ m h
      | some m0 =>
        simp only at h
        split at h
        · cases h; assumption
        · exact ih _ m h

/-- C1: `parse_sdp` selects only blocks with a control URL, `sendonly`
direction and a PCMU/PCMA codec; on the two-block fixture it returns
the second block's control URL with payload-type token `"0"` (stored
as integer 0), and it returns `none` when no block qualifies. -/
theorem c1_parse_sdp :
    (∀ sdp m, parseSdpLoop (pySplitOn sdp "\n") none = some m →
      m.control.isSome = true ∧ m.direction = some "sendonly" ∧
        m.codec.isSome = true) ∧
    parse_sdp twoBlockSdp = some ("trackID=2", some "0") ∧
    pyInt? "0" = some 0 ∧
    parse_sdp noMatchSdp = none := by
  refine ⟨fun sdp m h => ?_, by decide, by decide, by decide⟩
  have hq := parseSdpLoop_qualifies _ _ _ h
  simp only [sdpQualifies, Bool.and_eq_true, beq_iff_eq] at hq
  exact ⟨hq.1.1.1, hq.2, hq.1.2⟩

/-- Witness for C1: the scan loop on the two-block fixture concretely
returns the qualifying second block. -/
theorem c1_parse_sdp_witness :
    parseSdpLoop (pySplitOn twoBlockSdp "\n") none = some twoBlockSelected ∧
    (twoBlockSelected.control.isSome = true ∧
      twoBlockSelected.direction = some "sendonly" ∧
      twoBlockSelected.codec.isSome = true) :=
  ⟨by decide, c1_parse_sdp.1 twoBlockSdp twoBlockSelected (by decide)⟩

/-- C2: the Digest response of `_create_auth_header` is
`MD5(MD5(user:realm:pass) : nonce : MD5(method:uri))` in lowercase hex,
and on the fixture (user `test`, pass `pass123`, realm `X`, nonce `Y`,
method `SETUP`, uri `rtsp://host/track1`) it equals the precomputed
digest `8a773df1ecf58b98e3ce96edabcd825a`, which is what the full
Authorization header carries. -/
theorem c2_digest_response :
    (∀ u r p n m uri, createAuthResponse u r p n m uri =
      md5Hex (md5Hex (u ++ ":" ++ r ++ ":" ++ p) ++ ":" ++ n ++ ":" ++
        md5Hex (m ++ ":" ++ uri))) ∧
    createAuthResponse "test" "X" "pass123" "Y" "SETUP" "rtsp://host/track1" =
      "8a773df1ecf58b98e3ce96edabcd825a" ∧
    createAuthHeader
      { initState "rtsp://host/track1" "test" "pass123" "host" 554 with
        realm := some "X", nonce := some "Y" } "SETUP" "rtsp://host/track1" =
      "Digest username=\"test\", realm=\"X\", nonce=\"Y\", " ++
      "uri=\"rtsp://host/track1\", response=\"8a773df1ecf58b98e3ce96edabcd825a\"" :=
  ⟨fun _ _ _ _ _ _ => rfl, by decide, by decide⟩

/-- Decoding bytes 2-3 of an emitted packet recovers the sequence
counter. -/
theorem rtpSeqOf_build (pt : Int) (st : RtpState) (p : List Nat)
    (h : st.backchannel_seq < 65536) :
    rtpSeqOf (buildRtpHeader pt st ++ p) = st.backchannel_seq := by
  have e1 : ∀ x : Nat, x &&& 255 = x % 256 := fun x => by
    have hx := Nat.and_pow_two_sub_one_eq_mod x 8
    norm_num at hx; exact hx
  have e2 : st.backchannel_seq >>> 8 = st.backchannel_seq / 256 := by
    have hx := Nat.shiftRight_eq_div_pow st.backchannel_seq 8
    norm_num at hx; exact hx
  simp [rtpSeqOf, buildRtpHeader, e2, e1]
  omega

/-- Decoding bytes 4-7 of an emitted packet recovers the timestamp. -/
theorem rtpTsOf_build (pt : Int) (st : RtpState) (p : List Nat)
    (h : st.backchannel_timestamp < 4294967296) :
    rtpTsOf (buildRtpHeader pt st ++ p) = st.backchannel_timestamp := by
  simp [rtpTsOf, buildRtpHeader, beBytes4]
  omega

/-- Bytes 8-11 of an emitted packet are the handler's SSRC. -/
theorem rtpSsrcOf_build (pt : Int) (st : RtpState) (p : List Nat)
    (h : st.backchannel_ssrc.length = 4) :
    rtpSsrcOf (buildRtpHeader pt st ++ p) = st.backchannel_ssrc := by
  simp only [rtpSsrcOf, buildRtpHeader, beBytes4, List.cons_append,
    List.append_assoc, List.drop_succ_cons, List.drop_zero, List.nil_append]
  rw [← h, List.take_left]

/-- The counter invariants are preserved across a packet. -/
theorem advanceRtp_inv (st : RtpState) :
    (advanceRtp st).backchannel_seq < 65536 ∧
    (advanceRtp st).backchannel_timestamp < 4294967296 ∧
    (advanceRtp st).backchannel_ssrc = st.backchannel_ssrc ∧
    (advanceRtp st).backchannel_seq = (st.backchannel_seq + 1) % 65536 ∧
    (advanceRtp st).backchannel_timestamp =
      (st.backchannel_timestamp + 160) % 4294967296 := by
  have h1 := Nat.and_pow_two_sub_one_eq_mod (st.backchannel_seq + 1) 16
  have h2 := Nat.and_pow_two_sub_one_eq_mod (st.backchannel_timestamp + 160) 32
  norm_num at h1 h2
  refine ⟨?_, ?_, rfl, ?_, ?_⟩ <;> simp [advanceRtp, h1, h2] <;> omega

/-- C4: within one session, consecutive packets emitted by the shared
RTP packetization code (either strategy) carry sequence numbers that
increase by exactly 1 mod 2^16, timestamps that increase by exactly
160 mod 2^32, and the handler's fixed SSRC in bytes 8-11. -/
theorem c4_rtp_counters (pt : Int) :
    ∀ (ps : List (List Nat)) (st : RtpState),
    st.backchannel_seq < 65536 → st.backchannel_timestamp < 4294967296 →
    st.backchannel_ssrc.length = 4 →
    ∀ i, i + 1 < ((emitPackets pt st ps).1).length →
      rtpSeqOf (((emitPackets pt st ps).1).getD (i + 1) []) =
        (rtpSeqOf (((emitPackets pt st ps).1).getD i []) + 1) % 65536 ∧
      rtpTsOf (((emitPackets pt st ps).1).getD (i + 1) []) =
        (rtpTsOf (((emitPackets pt st ps).1).getD i []) + 160) % 4294967296 ∧
      rtpSsrcOf (((emitPackets pt st ps).1).getD (i + 1) []) =
        st.backchannel_ssrc ∧
      rtpSsrcOf (((emitPackets pt st ps).1).getD i []) =
        st.backchannel_ssrc := by
  intro ps
  induction ps with
  | nil =>
    intro st _ _ _ i hi
    simp [emitPackets] at hi
  | cons p ps ih =>
    intro st h1 h2 h3 i hi
    have hadv := advanceRtp_inv st
    cases i with
    | zero =>
      cases ps with
      | nil => simp [emitPackets] at hi
      | cons q qs =>
        simp only [emitPackets, List.getD_cons_succ, List.getD_cons_zero]
        refine ⟨?_, ?_, ?_, ?_⟩
        · rw [rtpSeqOf_build pt _ q hadv.1, rtpSeqOf_build pt st p h1,
            hadv.2.2.2.1]
        · rw [rtpTsOf_build pt _ q hadv.2.1, rtpTsOf_build pt st p h2,
            hadv.2.2.2.2]
        · rw [rtpSsrcOf_build pt _ q (by rw [hadv.2.2.1]; exact h3),
            hadv.2.2.1]
        · exact rtpSsrcOf_build pt st p h3
    | succ j =>
      have hlen : j + 1 < ((emitPackets pt (advanceRtp st) ps).1).length := by
        simpa [emitPackets] using hi
      have := ih (advanceRtp st) hadv.1 hadv.2.1
        (by rw [hadv.2.2.1]; exact h3) j hlen
      simpa [emitPackets, List.getD_cons_succ, hadv.2.2.1] using this

/-- Witness for C4: three one-byte payloads from the initial counters. -/
theorem c4_rtp_counters_witness :
    ((0 : Nat) < 65536 ∧ (0 : Nat) < 4294967296 ∧
      ([9, 9, 9, 9] : List Nat).length = 4 ∧
      (1 : Nat) + 1 <
        ((emitPackets 0 ⟨0, 0, [9, 9, 9, 9]⟩ [[1], [2], [3]]).1).length) ∧
    (rtpSeqOf (((emitPackets 0 ⟨0, 0, [9, 9, 9, 9]⟩ [[1], [2], [3]]).1).getD 2 []) =
      (rtpSeqOf (((emitPackets 0 ⟨0, 0, [9, 9, 9, 9]⟩ [[1], [2], [3]]).1).getD 1 []) + 1) % 65536 ∧
    rtpTsOf (((emitPackets 0 ⟨0, 0, [9, 9, 9, 9]⟩ [[1], [2], [3]]).1).getD 2 []) =
      (rtpTsOf (((emitPackets 0 ⟨0, 0, [9, 9, 9, 9]⟩ [[1], [2], [3]]).1).getD 1 []) + 160) % 4294967296 ∧
    rtpSsrcOf (((emitPackets 0 ⟨0, 0, [9, 9, 9, 9]⟩ [[1], [2], [3]]).1).getD 2 []) = [9, 9, 9, 9] ∧
    rtpSsrcOf (((emitPackets 0 ⟨0, 0, [9, 9, 9, 9]⟩ [[1], [2], [3]]).1).getD 1 []) = [9, 9, 9, 9]) :=
  ⟨⟨by decide, by decide, by decide, by decide⟩,
    c4_rtp_counters 0 [[1], [2], [3]] ⟨0, 0, [9, 9, 9, 9]⟩ (by decide) (by decide)
      (by decide) 1 (by decide)⟩

/-- One push keeps the ingest queue within capacity. -/
theorem ingestPush_length_le {α : Type} (q : List α) (x : α) (b : Bool)
    (h : q.length ≤ INGEST_CAPACITY) :
    (ingestPush q x b).length ≤ INGEST_CAPACITY := by
  simp only [INGEST_CAPACITY] at h ⊢
  by_cases hq : q.length ≥ 50 <;> by_cases hb : b <;>
    simp [ingestPush, INGEST_CAPACITY, hq, hb, List.length_tail] <;> omega

/-- Any push sequence from a within-capacity queue stays within
capacity. -/
theorem ingestPushAll_length_le {α : Type} (xs : List (α × Bool)) :
    ∀ q : List α, q.length ≤ INGEST_CAPACITY →
      (ingestPushAll q xs).length ≤ INGEST_CAPACITY := by
  induction xs with
  | nil => intro q h; simpa [ingestPushAll] using h
  | cons xb xs ih =>
    intro q h
    simpa [ingestPushAll] using ih _ (ingestPush_length_le q xb.1 xb.2 h)

/-- Drop-oldest law for a run of successful pushes: the queue ends as
the suffix of capacity-many most recent items. -/
theorem ingestPushAll_drop {α : Type} (xs : List α) :
    ∀ q : List α, q.length ≤ INGEST_CAPACITY →
      ingestPushAll q (xs.map (fun x => (x, false))) =
        (q ++ xs).drop ((q ++ xs).length - INGEST_CAPACITY) := by
  induction xs with
  | nil =>
    intro q h
    simp only [ingestPushAll, List.map_nil, List.foldl_nil, List.append_nil]
    rw [Nat.sub_eq_zero_of_le h, List.drop_zero]
  | cons x xs ih =>
    intro q h
    simp only [List.map_cons, ingestPushAll, List.foldl_cons]
    rcases Nat.lt_or_ge q.length INGEST_CAPACITY with hlt | hge
    · have hpush : ingestPush q x false = q ++ [x] := by
        simp [ingestPush, Nat.not_le.mpr hlt]
      rw [hpush]
      have h2 := ih (q ++ [x]) (by simp; omega)
      simp only [ingestPushAll] at h2
      rw [h2, List.append_assoc]
      simp
    · have heq : q.length = INGEST_CAPACITY := le_antisymm h hge
      obtain ⟨c, t, rfl⟩ : ∃ c t, q = c :: t := by
        cases q with
        | nil => exact absurd heq.symm (by simp [INGEST_CAPACITY])
        | cons c t => exact ⟨c, t, rfl⟩
      have hge' : INGEST_CAPACITY ≤ t.length + 1 := by simpa using hge
      have hpush : ingestPush (c :: t) x false = t ++ [x] := by
        simp [ingestPush, hge']
      rw [hpush]
      have ht : t.length + 1 = INGEST_CAPACITY := by simpa using heq
      have h2 := ih (t ++ [x]) (by simp [ht])
      simp only [ingestPushAll] at h2
      rw [h2]
      have hL : (c :: t) ++ x :: xs = c :: (t ++ [x] ++ xs) := by simp
      rw [hL]
      have e1 : (t ++ [x] ++ xs).length - INGEST_CAPACITY = xs.length := by
        simp; omega
      have e2 : (c :: (t ++ [x] ++ xs)).length - INGEST_CAPACITY =
          xs.length + 1 := by
        simp; omega
      rw [e1, e2, List.drop_succ_cons]

/-- C5: the ingest queue never exceeds its capacity of 50 at any point
of a push sequence; a run of successful pushes retains exactly the most
recent 50 chunks (drop-oldest); a full queue evicts exactly the single
oldest entry before appending; and a timed-out push drops the new
chunk, leaving the queue as it stands. -/
theorem c5_ingest_queue :
    (∀ (xs : List (List Nat × Bool)) (n : Nat),
      (ingestPushAll ([] : List (List Nat)) (xs.take n)).length ≤
        INGEST_CAPACITY) ∧
    (∀ xs : List (List Nat), INGEST_CAPACITY < xs.length →
      ingestPushAll [] (xs.map (fun x => (x, false))) =
        xs.drop (xs.length - INGEST_CAPACITY)) ∧
    (∀ (q : List (List Nat)) (x : List Nat), q.length = INGEST_CAPACITY →
      ingestPush q x false = q.tail ++ [x]) ∧
    (∀ (q : List (List Nat)) (x : List Nat),
      ingestPush q x true =
        if q.length ≥ INGEST_CAPACITY then q.tail else q) := by
  refine ⟨fun xs n => ingestPushAll_length_le _ _ (by simp),
    fun xs h => ?_, fun q x h => ?_, fun q x => rfl⟩
  · have := ingestPushAll_drop xs ([] : List (List Nat)) (by simp)
    simpa using this
  · simp [ingestPush, h]

/-- Witness for C5: 51 pushes into an empty queue keep only the last
50, and a timed-out push onto a concrete full queue drops the chunk. -/
theorem c5_ingest_queue_witness :
    (INGEST_CAPACITY < ((List.range 51).map (fun i => [i])).length ∧
      ingestPushAll []
          (((List.range 51).map (fun i => [i])).map (fun x => (x, false))) =
        ((List.range 51).map (fun i => [i])).drop
          (((List.range 51).map (fun i => [i])).length - INGEST_CAPACITY)) ∧
    (((List.range 50).map (fun i => [i])).length = INGEST_CAPACITY ∧
      ingestPush ((List.range 50).map (fun i => [i])) [99] false =
        ((List.range 50).map (fun i => [i])).tail ++ [[99]]) :=
  ⟨⟨by decide, c5_ingest_queue.2.1 _ (by decide)⟩,
   ⟨by decide, c5_ingest_queue.2.2.1 _ [99] (by decide)⟩⟩

/-- C6 counterexample: for a 100-byte chunk the second queue entry is
the 3996-byte complement padding, not a nominal-size (4096-byte) chunk,
and the first entry (the short chunk itself) is not nominal-size
either. -/
theorem c6_counterexample :
    ingestChunkEntries (List.replicate 100 7) =
      [List.replicate 100 7, List.replicate 3996 0] ∧
    (List.replicate 3996 (0 : Nat)).length = 3996 ∧
    (3996 : Nat) ≠ CHUNK ∧
    (List.replicate 100 (7 : Nat)).length ≠ CHUNK := by
  have hlen : (List.replicate 100 (7 : Nat)).length < CHUNK := by
    rw [List.length_replicate]; norm_num [CHUNK]
  have he : ingestChunkEntries (List.replicate 100 7) =
      [List.replicate 100 7, List.replicate 3996 0] := by
    rw [ingestChunkEntries, if_pos hlen, List.length_replicate]
    rfl
  exact ⟨he, List.length_replicate 3996 0, by norm_num [CHUNK],
    by rw [List.length_replicate]; norm_num [CHUNK]⟩

/-- C6 (amended): every short chunk is followed immediately by a second
all-zero chunk of length `CHUNK - len(chunk)`, so the two entries
together hold exactly the nominal byte count; full-size chunks get no
padding entry. -/
theorem c6_amended :
    (∀ chunk : List Nat, chunk.length < CHUNK →
      ingestChunkEntries chunk =
        [chunk, List.replicate (CHUNK - chunk.length) 0] ∧
      (∀ b ∈ List.replicate (CHUNK - chunk.length) (0 : Nat), b = 0) ∧
      chunk.length + (CHUNK - chunk.length) = CHUNK) ∧
    (∀ chunk : List Nat, ¬ chunk.length < CHUNK →
      ingestChunkEntries chunk = [chunk]) := by
  constructor
  · intro chunk h
    refine ⟨by simp [ingestChunkEntries, h], fun b hb => ?_, ?_⟩
    · exact List.eq_of_mem_replicate hb
    · simp only [CHUNK] at h ⊢; omega
  · intro chunk h
    simp [ingestChunkEntries, h]

/-- Witness for C6: a concrete 1000-byte chunk yields the 3096-byte
zero padding entry. -/
theorem c6_amended_witness :
    ((List.replicate 1000 (5 : Nat)).length < CHUNK ∧
      (ingestChunkEntries (List.replicate 1000 5) =
        [List.replicate 1000 5,
          List.replicate (CHUNK - (List.replicate 1000 (5 : Nat)).length) 0] ∧
      (∀ b ∈ List.replicate (CHUNK - (List.replicate 1000 (5 : Nat)).length)
          (0 : Nat), b = 0) ∧
      (List.replicate 1000 (5 : Nat)).length +
        (CHUNK - (List.replicate 1000 (5 : Nat)).length) = CHUNK)) ∧
    (¬ (List.replicate 4096 (5 : Nat)).length < CHUNK ∧
      ingestChunkEntries (List.replicate 4096 5) = [List.replicate 4096 5]) :=
  ⟨⟨by rw [List.length_replicate, CHUNK]; omega,
    c6_amended.1 _ (by rw [List.length_replicate, CHUNK]; omega)⟩,
   ⟨by rw [List.length_replicate, CHUNK]; omega,
    c6_amended.2 _ (by rw [List.length_replicate, CHUNK]; omega)⟩⟩

/-- C7: a sub-frame whose RMS after the volume-adjustment step is below
the noise-gate threshold is scaled by exactly
`max(0.01, rms / threshold)`; that factor is at least the 0.01 floor
and strictly positive, so the gate never hard-mutes. -/
theorem c7_noise_gate (c : List Int)
    (h : (aRms (volumeStep c) : ℚ) < NOISE_GATE_THRESHOLD) :
    gateStep (volumeStep c) =
      aMul (volumeStep c)
        (max (1/100) ((aRms (volumeStep c) : ℚ) / NOISE_GATE_THRESHOLD)) ∧
    (1/100 : ℚ) ≤
      max (1/100) ((aRms (volumeStep c) : ℚ) / NOISE_GATE_THRESHOLD) ∧
    (0 : ℚ) <
      max (1/100) ((aRms (volumeStep c) : ℚ) / NOISE_GATE_THRESHOLD) := by
  refine ⟨?_, le_max_left _ _,
    lt_of_lt_of_le (by norm_num) (le_max_left _ _)⟩
  rw [gateStep, if_pos h]

/-- Witness for C7: the all-zero sub-frame has RMS 0 below the
threshold, and the gate applies the floor factor rather than muting. -/
theorem c7_noise_gate_witness :
    ((aRms (volumeStep (List.replicate 160 (0 : Int))) : ℚ) <
      NOISE_GATE_THRESHOLD) ∧
    gateStep (volumeStep (List.replicate 160 (0 : Int))) =
      aMul (volumeStep (List.replicate 160 (0 : Int)))
        (max (1/100)
          ((aRms (volumeStep (List.replicate 160 (0 : Int))) : ℚ) /
            NOISE_GATE_THRESHOLD)) := by
  have hvol : volumeStep (List.replicate 160 (0 : Int)) =
      List.replicate 160 (0 : Int) := by decide
  have hsum : sumSq (List.replicate 160 (0 : Int)) = 0 := by decide
  have hrms : aRms (volumeStep (List.replicate 160 (0 : Int))) = 0 := by
    rw [hvol, aRms, hsum]; simp
  have h : (aRms (volumeStep (List.replicate 160 (0 : Int))) : ℚ) <
      NOISE_GATE_THRESHOLD := by
    rw [hrms]; norm_num [NOISE_GATE_THRESHOLD]
  exact ⟨h, (c7_noise_gate _ h).1⟩

/-- C9 counterexample: in the FFmpeg strategy a failed send invalidates
the socket with zero keepalive probes — not the exactly-one probe the
claim asserts for either strategy. -/
theorem c9_counterexample :
    ¬ ((ffmpegSendAttempt false).keepaliveProbes = 1 ∧
      ((ffmpegSendAttempt false).socketInvalidated = true →
        (ffmpegSendAttempt false).keepaliveProbes = 1)) := by
  decide

/-- C9 (amended): in the audioop strategy a failed send triggers
exactly one keepalive probe and the socket is invalidated exactly when
the probe fails (returns false or raises); in the FFmpeg strategy a
failed send invalidates the socket immediately with no probe; in both
strategies no exception escapes the worker loop and a successful send
probes nothing. -/
theorem c9_send_failure :
    (∀ kr, (audioopSendAttempt false kr).keepaliveProbes = 1 ∧
      ((audioopSendAttempt false kr).socketInvalidated = (kr ≠ some true)) ∧
      (audioopSendAttempt false kr).raisesOut = false) ∧
    (∀ ok kr, (audioopSendAttempt ok kr).raisesOut = false ∧
      (ffmpegSendAttempt ok).raisesOut = false) ∧
    (∀ kr, audioopSendAttempt true kr = ⟨0, false, false, false⟩) ∧
    ffmpegSendAttempt false = ⟨0, true, true, false⟩ ∧
    ffmpegSendAttempt true = ⟨0, false, false, false⟩ := by
  refine ⟨fun kr => ?_, fun ok kr => ?_, fun kr => rfl, rfl, rfl⟩
  · rcases kr with _ | _ | _ <;> simp [audioopSendAttempt]
  · rcases ok with _ | _ <;> rcases kr with _ | _ | _ <;>
      simp [audioopSendAttempt, ffmpegSendAttempt]

/-! ### State-preservation lemmas for `send_request` -/

/-- The session fields that neither the Digest-challenge parse nor
`send_request` ever write. -/
def PreservedFields (a b : RTSPState) : Prop :=
  a.backchannel_payload_type = b.backchannel_payload_type ∧
  a.backchannel_configured = b.backchannel_configured ∧
  a.backchannel_socket = b.backchannel_socket ∧
  a.backchannel_server_port = b.backchannel_server_port ∧
  a.session_id = b.session_id ∧
  a.url = b.url

theorem preservedFields_refl (a : RTSPState) : PreservedFields a a :=
  ⟨rfl, rfl, rfl, rfl, rfl, rfl⟩

theorem preservedFields_trans {a b c : RTSPState}
    (h1 : PreservedFields a b) (h2 : PreservedFields b c) :
    PreservedFields a c :=
  ⟨h1.1.trans h2.1, h1.2.1.trans h2.2.1, h1.2.2.1.trans h2.2.2.1,
   h1.2.2.2.1.trans h2.2.2.2.1, h1.2.2.2.2.1.trans h2.2.2.2.2.1,
   h1.2.2.2.2.2.trans h2.2.2.2.2.2⟩

theorem digestItemStep_preserves (st : RTSPState) (item : String) :
    PreservedFields (digestItemStep st item) st := by
  unfold digestItemStep PreservedFields
  repeat' split
  all_goals simp

theorem digestFold_preserves (items : List String) :
    ∀ st, PreservedFields (items.foldl digestItemStep st) st := by
  induction items with
  | nil => intro st; exact preservedFields_refl st
  | cons i is ih =>
    intro st
    exact preservedFields_trans (ih (digestItemStep st i))
      (digestItemStep_preserves st i)

theorem parseDigestChallenge_preserves (st : RTSPState) (a : String) :
    PreservedFields (parseDigestChallenge st a) st := by
  unfold parseDigestChallenge
  split
  · refine preservedFields_trans
      (digestFold_preserves _ { st with auth_type := some "Digest" }) ?_
    simp [PreservedFields]
  · exact preservedFields_refl st

/-- `send_request` never writes the payload type, the backchannel
configuration flag, either backchannel socket field, the session id or
the URL, in any branch including the digest retry. -/
theorem send_request_preserves (resps : List String) :
    ∀ (st : RTSPState) (m : String) (h : Option Headers) (p : Option String)
      (tr : List SentReq),
      PreservedFields (send_request st m h p resps tr).state st := by
  induction resps with
  | nil =>
    intro st m h p tr
    simp [send_request, SendRes.state, PreservedFields]
  | cons raw rest ih =>
    intro st m h p tr
    cases hpr : parseResponse raw with
    | none => simp [send_request, hpr, SendRes.state, PreservedFields]
    | some t =>
      obtain ⟨status, rh, bd⟩ := t
      simp only [send_request, hpr]
      split
      · split
        · refine preservedFields_trans (ih _ _ _ _ _) ?_
          refine preservedFields_trans (parseDigestChallenge_preserves _ _) ?_
          simp [PreservedFields]
        · simp only [SendRes.state]
          refine preservedFields_trans (parseDigestChallenge_preserves _ _) ?_
          simp [PreservedFields]
      · simp [SendRes.state, PreservedFields]

/-! ### C8: teardown -/

/-- A negotiated state: payload type 8 (PCMA) and a live session. -/
def c8State : RTSPState :=
  { initState "rtsp://h/" "u" "p" "h" 554 with
    backchannel_payload_type := 8, session_id := some "ABC" }

/-- C8 counterexample: `teardown` leaves `backchannel_payload_type` at
its negotiated value 8, which differs from the `__init__` value 0 — so
the payload type is *not* reset to its initial value. -/
theorem c8_counterexample :
    (teardown c8State []).backchannel_payload_type = 8 ∧
    (initState "rtsp://h/" "u" "p" "h" 554).backchannel_payload_type = 0 ∧
    (teardown c8State []).backchannel_payload_type ≠
      (initState "rtsp://h/" "u" "p" "h" 554).backchannel_payload_type := by
  refine ⟨by decide, rfl, by decide⟩

/-- C8 (amended): after `teardown` the session id, server port, realm,
nonce and auth type are `None`, the CSeq counter is 0, the keepalive
timestamp is 0, both sockets are closed and the configured flag is
cleared — but `backchannel_payload_type` keeps whatever value it had. -/
theorem c8_teardown (st : RTSPState) (rs : List String) :
    (teardown st rs).session_id = none ∧
    (teardown st rs).backchannel_server_port = none ∧
    (teardown st rs).seq = 0 ∧
    (teardown st rs).auth_type = none ∧
    (teardown st rs).realm = none ∧
    (teardown st rs).nonce = none ∧
    (teardown st rs).last_keepalive = 0 ∧
    (teardown st rs).backchannel_configured = false ∧
    (teardown st rs).sockOpen = false ∧
    (teardown st rs).backchannel_socket = false ∧
    (teardown st rs).backchannel_payload_type = st.backchannel_payload_type := by
  refine ⟨by simp [teardown], by simp [teardown], by simp [teardown],
    by simp [teardown], by simp [teardown], by simp [teardown],
    by simp [teardown], by simp [teardown], by simp [teardown],
    by simp [teardown], ?_⟩
  simp only [teardown]
  split
  · exact (send_request_preserves rs st "TEARDOWN" none (some st.url) []).1
  · rfl

/-! ### C3: the 401 digest retry -/

theorem find?_upsertMap (t : Headers) (k v k' : String) (h : k' ≠ k) :
    (t.map (fun p => if p.1 = k then (k, v) else p)).find?
        (fun p => p.1 = k') = t.find? (fun p => p.1 = k') := by
  induction t with
  | nil => simp
  | cons q t ih =>
    by_cases hq : q.1 = k
    · simp [hq, Ne.symm h, ih]
    · by_cases hq' : q.1 = k' <;> simp [hq, hq', ih, h]

/-- Python dict semantics of `upsert` through `get`. -/
theorem getHeader_upsert (hs : Headers) (k v k' : String) :
    getHeader (upsert hs k v) k' =
      if k' = k then some v else getHeader hs k' := by
  unfold upsert getHeader
  by_cases hany : hs.any (fun p => p.1 = k)
  · rw [if_pos hany]
    by_cases h : k' = k
    · subst h
      rw [if_pos rfl]
      have : ∀ t : Headers,
          t.any (fun p => p.1 = k') = true →
          ((t.map (fun p => if p.1 = k' then (k', v) else p)).find?
            (fun p => p.1 = k')).map (fun p => p.2) = some v := by
        intro t
        induction t with
        | nil => simp
        | cons q t ih =>
          intro hq
          by_cases hq1 : q.1 = k'
          · simp [hq1]
          · simp only [List.any_cons, Bool.or_eq_true, decide_eq_true_eq]
              at hq
            rcases hq with hq | hq
            · exact absurd hq hq1
            · simpa [hq1] using ih (by simpa using hq)
      exact this hs hany
    · rw [if_neg h, find?_upsertMap hs k v k' h]
  · rw [if_neg hany]
    have hnone : hs.find? (fun p => p.1 = k) = none := by
      rw [List.find?_eq_none]
      intro q hq
      simp only [List.any_eq_true] at hany
      intro hc
      exact hany ⟨q, hq, by simp [hc]⟩
    by_cases h : k' = k
    · subst h
      simp [List.find?_append, hnone]
    · simp [List.find?_append, h, Ne.symm h]

/-- When realm (and so the digest retry guard) is already truthy,
`send_request` writes exactly one request. -/
theorem send_request_no_retry (st : RTSPState) (m : String)
    (h : Option Headers) (p : Option String) (rs : List String)
    (tr : List SentReq) (hr : pyTruthy st.realm = true) :
    (send_request st m h p rs tr).reqs =
      tr ++ [(m, reqUri { st with seq := st.seq + 1 } p,
        buildReqHeaders { st with seq := st.seq + 1 } m
          (reqUri { st with seq := st.seq + 1 } p) h)] := by
  cases rs with
  | nil => simp [send_request, SendRes.reqs]
  | cons raw rest =>
    cases hpr : parseResponse raw with
    | none => simp [send_request, hpr, SendRes.reqs]
    | some t =>
      obtain ⟨status, rh, bd⟩ := t
      simp only [send_request, hpr]
      rw [if_neg (by simp [hr])]
      simp [SendRes.reqs]

/-- At most one automatic retry ever happens: the trace grows by at
most two requests, whatever the state and responses. -/
theorem send_request_reqs_bound (st : RTSPState) (m : String)
    (h : Option Headers) (p : Option String) (rs : List String)
    (tr : List SentReq) :
    (send_request st m h p rs tr).reqs.length ≤ tr.length + 2 := by
  cases rs with
  | nil => simp [send_request, SendRes.reqs]
  | cons raw rest =>
    cases hpr : parseResponse raw with
    | none => simp [send_request, hpr, SendRes.reqs]
    | some t =>
      obtain ⟨status, rh, bd⟩ := t
      simp only [send_request, hpr]
      split
      · split
        · rename_i hguard htr
          rw [send_request_no_retry _ _ _ _ _ _ htr.1]
          simp
        · simp [SendRes.reqs]
      · simp [SendRes.reqs]

/-- A response that is not an unauthenticated 401 — any other status,
or a 401 with realm already known — is returned to the caller as its
(status, headers, body) triple, with exactly one request written. -/
theorem send_request_passthrough (st : RTSPState) (m : String)
    (h : Option Headers) (p : Option String) (raw : String)
    (rest : List String) (tr : List SentReq) (status : Int) (rh : Headers)
    (bd : String) (hpr : parseResponse raw = some (status, rh, bd))
    (hng : ¬ (status = 401 ∧ pyTruthy st.realm = false)) :
    send_request st m h p (raw :: rest) tr =
      .ok { st with seq := st.seq + 1, sockOpen := true } status rh bd rest
        (tr ++ [(m, reqUri { st with seq := st.seq + 1 } p,
          buildReqHeaders { st with seq := st.seq + 1 } m
            (reqUri { st with seq := st.seq + 1 } p) h)]) := by
  simp only [send_request, hpr]
  rw [if_neg (by simpa using hng)]

/-- The digest retry equation: on an unauthenticated 401 whose
challenge yields truthy realm and nonce, `send_request` re-issues the
method once, passing the *response* headers as the retried request's
header dict. -/
theorem send_request_retry_eq (st : RTSPState) (m : String)
    (h : Option Headers) (p : Option String) (raw : String)
    (rest : List String) (tr : List SentReq) (rh : Headers) (bd : String)
    (hpr : parseResponse raw = some (401, rh, bd))
    (hr : pyTruthy st.realm = false)
    (h1 : pyTruthy (parseDigestChallenge
      { st with seq := st.seq + 1, sockOpen := true }
      ((getHeader rh "WWW-Authenticate").getD "")).realm = true)
    (h2 : pyTruthy (parseDigestChallenge
      { st with seq := st.seq + 1, sockOpen := true }
      ((getHeader rh "WWW-Authenticate").getD "")).nonce = true) :
    send_request st m h p (raw :: rest) tr =
      send_request
        (parseDigestChallenge { st with seq := st.seq + 1, sockOpen := true }
          ((getHeader rh "WWW-Authenticate").getD ""))
        m (some rh) p rest
        (tr ++ [(m, reqUri { st with seq := st.seq + 1 } p,
          buildReqHeaders { st with seq := st.seq + 1 } m
            (reqUri { st with seq := st.seq + 1 } p) h)]) := by
  simp only [send_request, hpr]
  rw [if_pos (by simp [hr]), if_pos (by exact ⟨h1, h2⟩)]

/-- Keys that `buildReqHeaders` does not write pass through from the
caller's dict. -/
theorem getHeader_buildReqHeaders_ne (st : RTSPState) (m uri : String)
    (h0 : Option Headers) (k : String) (h1 : k ≠ "CSeq")
    (h2 : k ≠ "User-Agent") (h3 : k ≠ "Require") (h4 : k ≠ "Session")
    (h5 : k ≠ "Authorization") :
    getHeader (buildReqHeaders st m uri h0) k = getHeader (h0.getD []) k := by
  have step : ∀ (hs : Headers) (kk v : String), k ≠ kk →
      getHeader (upsert hs kk v) k = getHeader hs k := fun hs kk v hne => by
    rw [getHeader_upsert, if_neg hne]
  simp only [buildReqHeaders]
  split
  · rw [step _ _ _ h5]
    split
    · rw [step _ _ _ h4, step _ _ _ h3, step _ _ _ h2, step _ _ _ h1]
    · rw [step _ _ _ h3, step _ _ _ h2, step _ _ _ h1]
  · split
    · rw [step _ _ _ h4, step _ _ _ h3, step _ _ _ h2, step _ _ _ h1]
    · rw [step _ _ _ h3, step _ _ _ h2, step _ _ _ h1]

/-- When realm and nonce are truthy, the built request headers carry an
`Authorization` entry. -/
theorem getHeader_buildReqHeaders_auth (st : RTSPState) (m uri : String)
    (h0 : Option Headers) (hr : pyTruthy st.realm = true)
    (hn : pyTruthy st.nonce = true) :
    getHeader (buildReqHeaders st m uri h0) "Authorization" =
      some (createAuthHeader st m uri) := by
  simp only [buildReqHeaders]
  rw [if_pos ⟨hr, hn⟩, getHeader_upsert, if_pos rfl]

/-! C3 fixtures -/

def c3Resp401 : String :=
  "RTSP/1.0 401 Unauthorized\r\n" ++
  "WWW-Authenticate: Digest realm=\"X\", nonce=\"Y\"\r\nDate: now\r\n\r\n"

def c3Resp200 : String := "RTSP/1.0 200 OK\r\nServer: cam\r\n\r\n"

def c3Start : RTSPState := initState "rtsp://host/" "test" "pass123" "host" 554

/-- The header dict of the 401 fixture response. -/
def c3RH : Headers :=
  [("WWW-Authenticate", "Digest realm=\"X\", nonce=\"Y\""), ("Date", "now")]

def c3Run : SendRes :=
  send_request c3Start "SETUP" none (some "rtsp://host/track1")
    [c3Resp401, c3Resp200] []

/-- C3 counterexample: in the concrete 401-retry run, the retried
request carries the `Date` and `WWW-Authenticate` headers of the 401
*response* (the Python rebinds `headers` to the response dict before
re-issuing), while the original request carried neither — so the
re-issued request is not the same request with only an Authorization
header attached. -/
theorem c3_counterexample :
    c3Run.reqs.length = 2 ∧
    getHeader ((c3Run.reqs.getD 0 ("", "", [])).2.2) "Date" = none ∧
    getHeader ((c3Run.reqs.getD 1 ("", "", [])).2.2) "Date" = some "now" ∧
    getHeader ((c3Run.reqs.getD 0 ("", "", [])).2.2) "WWW-Authenticate" =
      none ∧
    getHeader ((c3Run.reqs.getD 1 ("", "", [])).2.2) "WWW-Authenticate" =
      some "Digest realm=\"X\", nonce=\"Y\"" ∧
    "Date" ≠ "Authorization" := by
  decide

/-- C3 (amended): (a) with realm already known a request is written
exactly once; (b) the trace never grows by more than two requests, so
at most one automatic retry ever happens; (c) any response other than
an unauthenticated 401 is returned as its (status, headers, body)
triple — an `ok` result, not a raised error; (d) on an unauthenticated
401 whose Digest challenge yields realm and nonce, the method is
re-issued exactly once with the same method and target URI and an
Authorization header attached, the retried request's header dict being
derived from the 401 response's headers (its other entries pass
through) rather than from the original request's. -/
theorem c3_send_request :
    (∀ (st : RTSPState) (m : String) (h : Option Headers) (p : Option String)
        (rs : List String) (tr : List SentReq), pyTruthy st.realm = true →
      (send_request st m h p rs tr).reqs.length = tr.length + 1) ∧
    (∀ (st : RTSPState) (m : String) (h : Option Headers) (p : Option String)
        (rs : List String) (tr : List SentReq),
      (send_request st m h p rs tr).reqs.length ≤ tr.length + 2) ∧
    (∀ (st : RTSPState) (m : String) (h : Option Headers) (p : Option String)
        (raw : String) (rest : List String) (tr : List SentReq)
        (status : Int) (rh : Headers) (bd : String),
      parseResponse raw = some (status, rh, bd) →
      ¬ (status = 401 ∧ pyTruthy st.realm = false) →
      send_request st m h p (raw :: rest) tr =
        .ok { st with seq := st.seq + 1, sockOpen := true } status rh bd rest
          (tr ++ [(m, reqUri { st with seq := st.seq + 1 } p,
            buildReqHeaders { st with seq := st.seq + 1 } m
              (reqUri { st with seq := st.seq + 1 } p) h)])) ∧
    (∀ (st : RTSPState) (m : String) (h : Option Headers) (p : Option String)
        (raw : String) (rest : List String) (tr : List SentReq)
        (rh : Headers) (bd : String),
      parseResponse raw = some (401, rh, bd) →
      pyTruthy st.realm = false →
      ∀ st3, st3 = parseDigestChallenge
          { st with seq := st.seq + 1, sockOpen := true }
          ((getHeader rh "WWW-Authenticate").getD "") →
      pyTruthy st3.realm = true → pyTruthy st3.nonce = true →
      (send_request st m h p (raw :: rest) tr).reqs.length = tr.length + 2 ∧
      (∀ q ∈ (send_request st m h p (raw :: rest) tr).reqs.drop tr.length,
        q.1 = m ∧ q.2.1 = reqUri { st with seq := st.seq + 1 } p) ∧
      getHeader (((send_request st m h p (raw :: rest) tr).reqs.getD
          (tr.length + 1) ("", "", [])).2.2) "Authorization" =
        some (createAuthHeader { st3 with seq := st3.seq + 1 } m
          (reqUri { st with seq := st.seq + 1 } p)) ∧
      (∀ (k vv : String), getHeader rh k = some vv →
        k ≠ "CSeq" → k ≠ "User-Agent" → k ≠ "Require" → k ≠ "Session" →
        k ≠ "Authorization" →
        getHeader (((send_request st m h p (raw :: rest) tr).reqs.getD
          (tr.length + 1) ("", "", [])).2.2) k = some vv)) := by
  have hone : ∀ (st : RTSPState) (m : String) (h : Option Headers)
      (p : Option String) (rs : List String) (tr : List SentReq),
      pyTruthy st.realm = true →
      (send_request st m h p rs tr).reqs.length = tr.length + 1 := by
    intro st m h p rs tr hr
    rw [send_request_no_retry st m h p rs tr hr]
    simp
  refine ⟨hone, ?_, fun st m h p raw rest tr status rh bd hpr hng =>
    send_request_passthrough st m h p raw rest tr status rh bd hpr hng, ?_⟩
  · intro st m h p rs tr
    exact send_request_reqs_bound st m h p rs tr
  · intro st m h p raw rest tr rh bd hpr hr st3 hst3 h1 h2
    subst hst3
    rw [send_request_retry_eq st m h p raw rest tr rh bd hpr hr h1 h2]
    set st3 := parseDigestChallenge
      { st with seq := st.seq + 1, sockOpen := true }
      ((getHeader rh "WWW-Authenticate").getD "") with hst3def
    have hurl : st3.url = st.url :=
      (parseDigestChallenge_preserves _ _).2.2.2.2.2
    have huri : reqUri { st3 with seq := st3.seq + 1 } p =
        reqUri { st with seq := st.seq + 1 } p := by
      simp [reqUri, hurl]
    have hinner := send_request_no_retry st3 m (some rh) p rest
      (tr ++ [(m, reqUri { st with seq := st.seq + 1 } p,
        buildReqHeaders { st with seq := st.seq + 1 } m
          (reqUri { st with seq := st.seq + 1 } p) h)]) h1
    rw [hinner, huri]
    refine ⟨by simp, ?_, ?_, ?_⟩
    · intro q hq
      rw [List.append_assoc, List.drop_left] at hq
      simp only [List.cons_append, List.nil_append, List.mem_cons,
        List.mem_singleton] at hq
      rcases hq with rfl | rfl | hq
      · exact ⟨rfl, rfl⟩
      · exact ⟨rfl, rfl⟩
      · simp at hq
    · have hidx : (tr ++ [(m, reqUri { st with seq := st.seq + 1 } p,
          buildReqHeaders { st with seq := st.seq + 1 } m
            (reqUri { st with seq := st.seq + 1 } p) h)] ++
          [(m, reqUri { st with seq := st.seq + 1 } p,
            buildReqHeaders { st3 with seq := st3.seq + 1 } m
              (reqUri { st with seq := st.seq + 1 } p) (some rh))]).getD
          (tr.length + 1) ("", "", []) =
          (m, reqUri { st with seq := st.seq + 1 } p,
            buildReqHeaders { st3 with seq := st3.seq + 1 } m
              (reqUri { st with seq := st.seq + 1 } p) (some rh)) := by
        rw [List.append_assoc, List.getD_eq_getElem?_getD,
          List.getElem?_append_right (by simp)]
        simp
      rw [hidx]
      exact getHeader_buildReqHeaders_auth _ _ _ _ h1 h2
    · intro k vv hkv hk1 hk2 hk3 hk4 hk5
      have hidx : (tr ++ [(m, reqUri { st with seq := st.seq + 1 } p,
          buildReqHeaders { st with seq := st.seq + 1 } m
            (reqUri { st with seq := st.seq + 1 } p) h)] ++
          [(m, reqUri { st with seq := st.seq + 1 } p,
            buildReqHeaders { st3 with seq := st3.seq + 1 } m
              (reqUri { st with seq := st.seq + 1 } p) (some rh))]).getD
          (tr.length + 1) ("", "", []) =
          (m, reqUri { st with seq := st.seq + 1 } p,
            buildReqHeaders { st3 with seq := st3.seq + 1 } m
              (reqUri { st with seq := st.seq + 1 } p) (some rh)) := by
        rw [List.append_assoc, List.getD_eq_getElem?_getD,
          List.getElem?_append_right (by simp)]
        simp
      rw [hidx]
      rw [getHeader_buildReqHeaders_ne _ _ _ _ _ hk1 hk2 hk3 hk4 hk5]
      simpa using hkv

/-- The state after parsing the fixture 401 challenge. -/
def c3St3 : RTSPState :=
  parseDigestChallenge
    { c3Start with seq := c3Start.seq + 1, sockOpen := true }
    ((getHeader c3RH "WWW-Authenticate").getD "")

/-- Witness for C3: the retry clause applied to the concrete 401
fixture run. -/
theorem c3_send_request_witness :
    (parseResponse c3Resp401 = some (401, c3RH, "") ∧
      pyTruthy c3Start.realm = false ∧
      pyTruthy c3St3.realm = true ∧ pyTruthy c3St3.nonce = true) ∧
    ((send_request c3Start "SETUP" none (some "rtsp://host/track1")
        [c3Resp401, c3Resp200] []).reqs.length =
      ([] : List SentReq).length + 2 ∧
    (∀ q ∈ (send_request c3Start "SETUP" none (some "rtsp://host/track1")
        [c3Resp401, c3Resp200] []).reqs.drop ([] : List SentReq).length,
      q.1 = "SETUP" ∧
        q.2.1 = reqUri { c3Start with seq := c3Start.seq + 1 }
          (some "rtsp://host/track1")) ∧
    getHeader (((send_request c3Start "SETUP" none
        (some "rtsp://host/track1") [c3Resp401, c3Resp200] []).reqs.getD
        (([] : List SentReq).length + 1) ("", "", [])).2.2) "Authorization" =
      some (createAuthHeader { c3St3 with seq := c3St3.seq + 1 } "SETUP"
        (reqUri { c3Start with seq := c3Start.seq + 1 }
          (some "rtsp://host/track1"))) ∧
    (∀ (k vv : String), getHeader c3RH k = some vv →
      k ≠ "CSeq" → k ≠ "User-Agent" → k ≠ "Require" → k ≠ "Session" →
      k ≠ "Authorization" →
      getHeader (((send_request c3Start "SETUP" none
          (some "rtsp://host/track1") [c3Resp401, c3Resp200] []).reqs.getD
          (([] : List SentReq).length + 1) ("", "", [])).2.2) k = some vv)) :=
  ⟨⟨by decide, by decide, by decide, by decide⟩,
   c3_send_request.2.2.2 c3Start "SETUP" none (some "rtsp://host/track1")
     c3Resp401 [c3Resp200] [] c3RH "" (by decide) (by decide) c3St3 rfl
     (by decide) (by decide)⟩

/-! ### C10: setup_backchannel -/

theorem sendOk_fields {st s : RTSPState} {m : String} {h : Option Headers}
    {p : Option String} {rs rest : List String} {tr tr' : List SentReq}
    {status : Int} {rh : Headers} {bd : String}
    (heq : send_request st m h p rs tr = .ok s status rh bd rest tr') :
    PreservedFields s st := by
  have hp := send_request_preserves rs st m h p tr
  rw [heq] at hp
  exact hp

theorem sendErr_fields {st s : RTSPState} {m : String} {h : Option Headers}
    {p : Option String} {rs : List String} {tr tr' : List SentReq}
    (heq : send_request st m h p rs tr = .err s tr') :
    PreservedFields s st := by
  have hp := send_request_preserves rs st m h p tr
  rw [heq] at hp
  exact hp

/-- The negotiation invariant: the configured flag tracks the success
boolean (joined with its previous value), and success certifies the
bind, a held session id and a validated server port. -/
abbrev SetupInv (st : RTSPState) (b : Bool) (r : Bool × RTSPState) : Prop :=
  r.2.backchannel_configured = (r.1 || st.backchannel_configured) ∧
  (r.1 = true → b = true ∧ r.2.backchannel_configured = true ∧
    r.2.session_id.isSome = true ∧
    ∃ p : Int, r.2.backchannel_server_port = some p ∧
      1024 ≤ p ∧ p ≤ 65535)

theorem setupInv_mono {st st' : RTSPState} {b : Bool} {r : Bool × RTSPState}
    (h : SetupInv st b r)
    (hc : st.backchannel_configured = st'.backchannel_configured) :
    SetupInv st' b r :=
  ⟨hc ▸ h.1, h.2⟩

theorem inv_afterPlay (s7 : RTSPState) (status7 : Int) (b : Bool)
    (hs : s7.session_id.isSome = true)
    (hp : ∃ p : Int, s7.backchannel_server_port = some p ∧
      1024 ≤ p ∧ p ≤ 65535) :
    SetupInv s7 b (setup_afterPlay s7 status7 b) := by
  unfold setup_afterPlay
  split
  · exact ⟨by simp, by simp⟩
  · split
    · exact ⟨by simp, by simp⟩
    · rename_i hbind
      exact ⟨by simp, fun _ => ⟨not_not.mp hbind, rfl, hs, hp⟩⟩

theorem inv_play (s6 : RTSPState) (cb : String) (rs3 : List String) (b : Bool)
    (hs : s6.session_id.isSome = true)
    (hp : ∃ p : Int, s6.backchannel_server_port = some p ∧
      1024 ≤ p ∧ p ≤ 65535) :
    SetupInv s6 b (setup_play s6 cb rs3 b) := by
  unfold setup_play
  cases heq : send_request s6 "PLAY" (some [("Range", "npt=0.000-")])
      (some cb) rs3 [] with
  | err s tr =>
    exact ⟨by simpa using (sendErr_fields heq).2.1, by simp⟩
  | ok s7 status7 rh7 bd7 rs4 tr7 =>
    have hpre := sendOk_fields heq
    exact setupInv_mono
      (inv_afterPlay s7 status7 b (by rw [hpre.2.2.2.2.1]; exact hs)
        (by rw [hpre.2.2.2.1]; exact hp))
      hpre.2.1

theorem inv_afterSetup (s4 : RTSPState) (status4 : Int) (shdrs : Headers)
    (cb : String) (rs3 : List String) (b : Bool) :
    SetupInv s4 b (setup_afterSetup s4 status4 shdrs cb rs3 b) := by
  unfold setup_afterSetup
  split
  · exact ⟨by simp, by simp⟩
  · split
    · exact ⟨by simp, by simp⟩
    · split
      · exact ⟨by simp, by simp⟩
      · split
        · exact ⟨by simp, by simp⟩
        · rename_i p hport
          split
          · exact ⟨by simp, by simp⟩
          · rename_i hrange
            split
            · exact ⟨by simp, by simp⟩
            · refine setupInv_mono (inv_play _ cb rs3 b (by simp) ?_) rfl
              exact ⟨p, by simp, (not_not.mp hrange).1,
                (not_not.mp hrange).2⟩

theorem inv_setup (s3 : RTSPState) (cb track : String) (rs2 : List String)
    (b : Bool) : SetupInv s3 b (setup_setup s3 cb track rs2 b) := by
  unfold setup_setup
  cases heq : send_request s3 "SETUP"
      (some [("Transport", "RTP/AVP;unicast;client_port=" ++
        toString s3.backchannel_client_port ++ "-" ++
        toString (s3.backchannel_client_port + 1))])
      (some (cb ++ track)) rs2 [] with
  | err s tr =>
    exact ⟨by simpa using (sendErr_fields heq).2.1, by simp⟩
  | ok s4 status4 shdrs bd4 rs3 tr4 =>
    exact setupInv_mono (inv_afterSetup s4 status4 shdrs cb rs3 b)
      (sendOk_fields heq).2.1

theorem inv_afterDescribe (s2 : RTSPState) (status2 : Int) (dhdrs : Headers)
    (sdp : String) (rs2 : List String) (b : Bool) :
    SetupInv s2 b (setup_afterDescribe s2 status2 dhdrs sdp rs2 b) := by
  unfold setup_afterDescribe
  split
  · exact ⟨by simp, by simp⟩
  · split
    · exact ⟨by simp, by simp⟩
    · rename_i track ptStr hparse
      split
      · exact ⟨by simp, by simp⟩
      · rename_i pts
        split
        · exact ⟨by simp, by simp⟩
        · rename_i pt hpt
          split
          · exact ⟨by simp, by simp⟩
          · exact setupInv_mono (inv_setup _ _ track rs2 b) rfl

theorem inv_afterOptions (s1 : RTSPState) (status1 : Int) (rs1 : List String)
    (b : Bool) : SetupInv s1 b (setup_afterOptions s1 status1 rs1 b) := by
  unfold setup_afterOptions
  split
  · exact ⟨by simp, by simp⟩
  · cases heq : send_request s1 "DESCRIBE"
        (some [("Accept", "application/sdp")]) none rs1 [] with
    | err s tr =>
      exact ⟨by simpa using (sendErr_fields heq).2.1, by simp⟩
    | ok s2 status2 dhdrs sdp rs2 tr2 =>
      exact setupInv_mono (inv_afterDescribe s2 status2 dhdrs sdp rs2 b)
        (sendOk_fields heq).2.1

/-- The configured flag equals the returned success boolean (joined
with its previous value), and a `true` result certifies the bind, the
session id and the validated server port. -/
theorem setup_configured (st : RTSPState) (rs : List String) (b : Bool) :
    SetupInv st b (setup_backchannel st rs b) := by
  unfold setup_backchannel
  cases heq : send_request st "OPTIONS" none
      (some ("rtsp://" ++ st.hostname ++ ":" ++ toString st.port ++ "/"))
      rs [] with
  | err s tr =>
    exact ⟨by simpa using (sendErr_fields heq).2.1, by simp⟩
  | ok s1 status1 rh1 bd1 rs1 tr1 =>
    exact setupInv_mono (inv_afterOptions s1 status1 rs1 b)
      (sendOk_fields heq).2.1


/-! C10 fixtures: a negotiation that fails at PLAY, and one that
succeeds. -/

def c10Options : String := "RTSP/1.0 200 OK\r\n\r\n"

def c10Describe : String :=
  "RTSP/1.0 200 OK\r\nContent-Base: rtsp://h:554/\r\n\r\n" ++
  "m=audio 0 RTP/AVP 8\r\na=control:trackID=1\r\na=sendonly\r\n" ++
  "a=rtpmap:8 PCMA/8000\r\n"

def c10Setup : String :=
  "RTSP/1.0 200 OK\r\nTransport: RTP/AVP;unicast;client_port=" ++
  "49154-49155;server_port=49200-49201\r\nSession: SESS;timeout=60\r\n\r\n"

def c10PlayFail : String := "RTSP/1.0 404 Not Found\r\n\r\n"

def c10PlayOk : String := "RTSP/1.0 200 OK\r\n\r\n"

def c10Start : RTSPState := initState "rtsp://h:554/cam" "u" "pw" "h" 554

def c10S1 : RTSPState := { c10Start with seq := 1, sockOpen := true }
def c10S2 : RTSPState := { c10Start with seq := 2, sockOpen := true }
def c10Body : String :=
  "m=audio 0 RTP/AVP 8\r\na=control:trackID=1\r\na=sendonly\r\na=rtpmap:8 PCMA/8000\r\n"
def c10DH : Headers := [("Content-Base", "rtsp://h:554/")]
def c10SFinal : RTSPState :=
  { c10Start with
      seq := 4
      sockOpen := true
      backchannel_payload_type := 8
      backchannel_server_port := some 49200
      session_id := some "SESS" }

def c10S4 : RTSPState :=
  { c10Start with seq := 3, sockOpen := true, backchannel_payload_type := 8 }
def c10SH : Headers :=
  [("Transport", "RTP/AVP;unicast;client_port=49154-49155;server_port=49200-49201"),
   ("Session", "SESS;timeout=60")]

theorem c10run_eq : setup_backchannel c10Start
    [c10Options, c10Describe, c10Setup, c10PlayFail] true =
    (false, c10SFinal) := by
  have h1 : send_request c10Start "OPTIONS" none
      (some ("rtsp://" ++ c10Start.hostname ++ ":" ++
        toString c10Start.port ++ "/"))
      [c10Options, c10Describe, c10Setup, c10PlayFail] [] =
      .ok c10S1 200 [] "" [c10Describe, c10Setup, c10PlayFail]
        [("OPTIONS", "rtsp://h:554/",
          [("CSeq", "1"), ("User-Agent", "Python RTSP Client"),
           ("Require", "www.onvif.org/ver20/backchannel")])] := by decide
  have h2 : send_request c10S1 "DESCRIBE" (some [("Accept", "application/sdp")])
      none [c10Describe, c10Setup, c10PlayFail] [] =
      .ok c10S2 200 c10DH c10Body [c10Setup, c10PlayFail]
        [("DESCRIBE", "rtsp://h:554/cam",
          [("Accept", "application/sdp"), ("CSeq", "2"),
           ("User-Agent", "Python RTSP Client"),
           ("Require", "www.onvif.org/ver20/backchannel")])] := by decide
  have hps : parse_sdp c10Body = some ("trackID=1", some "8") := by decide
  have hpt8 : pyInt? "8" = some (8 : Int) := by decide
  have h3 : send_request { c10S2 with backchannel_payload_type := (8 : Int) }
      "SETUP"
      (some [("Transport", "RTP/AVP;unicast;client_port=" ++
        toString ({ c10S2 with backchannel_payload_type := (8 : Int) } :
          RTSPState).backchannel_client_port ++ "-" ++
        toString (({ c10S2 with backchannel_payload_type := (8 : Int) } :
          RTSPState).backchannel_client_port + 1))])
      (some ("rtsp://h:554/" ++ "trackID=1")) [c10Setup, c10PlayFail] [] =
      .ok c10S4 200 c10SH "" [c10PlayFail]
        [("SETUP", "rtsp://h:554/trackID=1",
          [("Transport", "RTP/AVP;unicast;client_port=49154-49155"),
           ("CSeq", "3"), ("User-Agent", "Python RTSP Client"),
           ("Require", "www.onvif.org/ver20/backchannel")])] := by decide
  have h4 : send_request
      { c10S4 with
          backchannel_server_port := some (49200 : Int)
          session_id := some "SESS" }
      "PLAY" (some [("Range", "npt=0.000-")]) (some "rtsp://h:554/")
      [c10PlayFail] [] =
      .ok c10SFinal 404 [] "" []
        [("PLAY", "rtsp://h:554/",
          [("Range", "npt=0.000-"), ("CSeq", "4"),
           ("User-Agent", "Python RTSP Client"),
           ("Require", "www.onvif.org/ver20/backchannel"),
           ("Session", "SESS")])] := by decide
  unfold setup_backchannel
  rw [h1]
  simp only []
  unfold setup_afterOptions
  rw [if_neg (by norm_num)]
  rw [h2]
  simp only []
  unfold setup_afterDescribe
  rw [if_neg (by norm_num), hps]
  simp only []
  rw [hpt8]
  simp only []
  rw [if_neg (by decide)]
  rw [show (getHeader c10DH "Content-Base").getD c10S2.url = "rtsp://h:554/"
    from by decide]
  rw [if_pos (show ("rtsp://h:554/").data.getLast? = some '/' from by decide)]
  unfold setup_setup
  rw [h3]
  simp only []
  unfold setup_afterSetup
  rw [if_neg (by norm_num)]
  rw [if_neg (by decide)]
  rw [if_neg (by decide)]
  rw [show pyInt? ((pySplitOn ((pySplitOn ((pySplitOn
      ((getHeader c10SH "Transport").getD "") "server_port=").getD 1 "")
      ";").getD 0 "") "-").getD 0 "") = some (49200 : Int) from by decide]
  simp only []
  rw [if_neg (by decide)]
  rw [if_neg (by decide)]
  rw [show ((pySplitOn ((getHeader c10SH "Session").getD "") ";").getD 0 "") =
    "SESS" from by decide]
  unfold setup_play
  rw [h4]
  simp only []
  unfold setup_afterPlay
  rw [if_pos (by norm_num)]

set_option maxHeartbeats 1600000 in
/-- C10: starting from an unconfigured state, `setup_backchannel`
reports `backchannel_configured = true` exactly on a `true` result —
which further certifies the UDP bind succeeded, a session id is held
and the parsed server port passed the 1024-65535 validation; any
failure returns `false` with the flag still `false`. On the concrete
run whose PLAY is rejected with 404, the result is `false` with the
flag down, yet `session_id`, `backchannel_server_port` and
`backchannel_payload_type` remain set from the earlier steps. -/
theorem c10_setup_backchannel :
    (∀ (st : RTSPState) (rs : List String) (b : Bool),
      st.backchannel_configured = false →
      ((setup_backchannel st rs b).1 = false →
        (setup_backchannel st rs b).2.backchannel_configured = false) ∧
      ((setup_backchannel st rs b).1 = true →
        b = true ∧
        (setup_backchannel st rs b).2.backchannel_configured = true ∧
        (setup_backchannel st rs b).2.session_id.isSome = true ∧
        ∃ p : Int,
          (setup_backchannel st rs b).2.backchannel_server_port = some p ∧
          1024 ≤ p ∧ p ≤ 65535)) ∧
    ((setup_backchannel c10Start
        [c10Options, c10Describe, c10Setup, c10PlayFail] true).1 = false ∧
      (setup_backchannel c10Start
        [c10Options, c10Describe, c10Setup, c10PlayFail]
        true).2.backchannel_configured = false ∧
      (setup_backchannel c10Start
        [c10Options, c10Describe, c10Setup, c10PlayFail]
        true).2.session_id = some "SESS" ∧
      (setup_backchannel c10Start
        [c10Options, c10Describe, c10Setup, c10PlayFail]
        true).2.backchannel_server_port = some 49200 ∧
      (setup_backchannel c10Start
        [c10Options, c10Describe, c10Setup, c10PlayFail]
        true).2.backchannel_payload_type = 8) := by
  constructor
  · intro st rs b hc
    have h := setup_configured st rs b
    refine ⟨fun hf => ?_, h.2⟩
    rw [h.1, hf, hc]
    rfl
  · rw [c10run_eq]
    exact ⟨rfl, rfl, rfl, rfl, rfl⟩

/-- Witness for C10: the implications applied to the concrete
successful negotiation. -/
theorem c10_setup_backchannel_witness :
    c10Start.backchannel_configured = false ∧
    (((setup_backchannel c10Start
        [c10Options, c10Describe, c10Setup, c10PlayOk] true).1 = false →
      (setup_backchannel c10Start
        [c10Options, c10Describe, c10Setup, c10PlayOk]
        true).2.backchannel_configured = false) ∧
    ((setup_backchannel c10Start
        [c10Options, c10Describe, c10Setup, c10PlayOk] true).1 = true →
      true = true ∧
      (setup_backchannel c10Start
        [c10Options, c10Describe, c10Setup, c10PlayOk]
        true).2.backchannel_configured = true ∧
      (setup_backchannel c10Start
        [c10Options, c10Describe, c10Setup, c10PlayOk]
        true).2.session_id.isSome = true ∧
      ∃ p : Int,
        (setup_backchannel c10Start
          [c10Options, c10Describe, c10Setup, c10PlayOk]
          true).2.backchannel_server_port = some p ∧
        1024 ≤ p ∧ p ≤ 65535)) :=
  ⟨by decide,
   c10_setup_backchannel.1 c10Start
     [c10Options, c10Describe, c10Setup, c10PlayOk] true (by decide)⟩

end Doorbell
